import Mathlib

/-!
# Verification of the Trend ticket-analytics core

Shallow embedding of the client-side ingestion / normalization / aggregation
pipeline of the Trend repository:

* `src/src/utils/categoryNormalizer.ts` (`normalizeCategory`)
* `src/src/utils/insightsGenerator.ts` (`analyzeTrendPattern`,
  `generateWeeklyInsights`, `generateMonthlyInsights`)
* `src/src/utils/excelParser.ts` (`parseDate`, `validatePriority`,
  `parseExcelData`, `calculateWeekNumbers`)
* the breakdown aggregation functions of the analytics dashboard component
  (`calculateCategoryBreakdown`, `calculatePriorityBreakdown`, ...)

Modelling conventions:

* JavaScript numbers are modelled as `Int` (integral quantities: counts,
  millisecond timestamps) or `Rat` (quantities produced by division).
  IEEE-754 rounding is not modelled; all the properties proved here concern
  exact arithmetic relationships (thresholds on integer counts, percentages
  as exact fractions), for which the rational model is the intended reading.
* JavaScript `Date` instants are modelled as integer milliseconds since the
  Unix epoch.  `Date.prototype.toISOString` is injective on valid instants,
  so equality of the ISO strings returned by the source is modelled as
  equality of the underlying instants.
* Local-time construction (`new Date(y, m, d, h, mi, s)`) depends on the
  host timezone; the timezone is made explicit as an integer millisecond
  offset parameter `tz` (milliseconds east of UTC).
-/

namespace Trend

/-- Whitespace predicate used to model JavaScript `String.prototype.trim`. -/
def isWS (c : Char) : Bool := c.isWhitespace

/-- Drop trailing whitespace characters. -/
def dropTrailingWS (l : List Char) : List Char :=
  (l.reverse.dropWhile isWS).reverse

/-- Character-list trimming on both ends. -/
def trimChars (l : List Char) : List Char :=
  dropTrailingWS (l.dropWhile isWS)

/-- Model of JavaScript `String.prototype.trim`. -/
def jsTrim (s : String) : String := String.mk (trimChars s.data)

/-- Model of the JavaScript check `s.trim() === ''`. -/
def isBlankStr (s : String) : Bool := jsTrim s == ""

/-- Substring occurrence over character lists (model of `String.prototype.includes`). -/
def hasSubChars (sub : List Char) : List Char → Bool
  | [] => sub.isEmpty
  | a :: t => sub.isPrefixOf (a :: t) || hasSubChars sub t

/-- Model of JavaScript `s.includes(sub)`. -/
def jsIncludes (s sub : String) : Bool := hasSubChars sub.data s.data

/-- Model of JavaScript `s.startsWith(sub)`. -/
def jsStartsWith (s sub : String) : Bool := sub.data.isPrefixOf s.data

/-- Model of JavaScript `s.toLowerCase()` (ASCII fragment). -/
def jsToLower (s : String) : String := String.mk (s.data.map Char.toLower)

/-- Model of JavaScript `s.toUpperCase()` (ASCII fragment). -/
def jsToUpper (s : String) : String := String.mk (s.data.map Char.toUpper)

/-! ## Category Normalizer (`src/src/utils/categoryNormalizer.ts`) -/

/-- The five known service keys of `normalizeCategory`. -/
inductive ServiceKey where
  | flexcube | cards | ibps | mfs | smart_teller
deriving DecidableEq, Repr

/-- The `smart_teller` branch of `normalizeCategory` (rule chain on the
lowercased trimmed input). -/
def smartTellerRules (input : String) : String :=
  let v := jsToLower input
  if jsIncludes v "interface freezing" || jsIncludes v "unresponsive" || jsIncludes v "slow" then
    "Interface freezing, slow and or unresponsive"
  else if jsIncludes v "core" && jsIncludes v "bank" && jsIncludes v "error" then
    "Core Banking Error"
  else if jsStartsWith v "assign application to user" then
    "Assign application to user on Smart Teller"
  else if jsStartsWith v "transaction failure" then
    "Transaction Failure"
  else input

/-- The `cards` branch of `normalizeCategory`. -/
def cardsRules (input : String) : String :=
  let v := jsToLower input
  if jsIncludes v "issuance" && jsIncludes v "connect" then
    "Card Issuance Connectivity issues"
  else if jsIncludes v "error code" || (jsIncludes v "complain" && jsIncludes v "error") then
    "Card Complain with error code"
  else if jsIncludes v "card" && jsIncludes v "error" then
    "Card error"
  else if jsIncludes v "indigo" then
    "Challenges on indigo"
  else input

/-- The `flexcube` branch of `normalizeCategory`. -/
def flexcubeRules (input : String) : String :=
  let v := jsToLower input
  if jsIncludes v "account maintenance" then "Account Maintenance"
  else if jsIncludes v "cheque" && jsIncludes v "book" then "Cheque Book"
  else if jsIncludes v "account" && jsIncludes v "closure" then "Account Closure"
  else if jsIncludes v "account" && jsIncludes v "class" && jsIncludes v "transfer" then
    "Account Class Transfer"
  else input

/-- The `ibps` branch of `normalizeCategory`. -/
def ibpsRules (input : String) : String :=
  let v := jsToLower input
  if jsIncludes v "account" && jsIncludes v "opening" then "Account Opening Challenges"
  else if (jsIncludes v "ao" && jsIncludes v "update") ||
      (jsIncludes v "account" && jsIncludes v "opening" && jsIncludes v "update") then
    "AO update Challenges"
  else if jsIncludes v "account maintenance" then "Account Maintenance"
  else if (jsIncludes v "ft" && jsIncludes v "validation") || jsIncludes v "fund transfer validation" then
    "FT validation issue"
  else input

/-- The `mfs` branch of `normalizeCategory`. -/
def mfsRules (input : String) : String :=
  let v := jsToLower input
  if jsIncludes v "virtual" && jsIncludes v "card" then "Issue creating virtual cards"
  else if jsIncludes v "onboarding" && jsIncludes v "non" &&
      (jsIncludes v "recipient" || jsIncludes v "recipient") then
    "Onboarding - Non recipient OTP"
  else if jsIncludes v "onboarding" then "Onboarding related"
  else if jsIncludes v "account" && jsIncludes v "activation" then "Account Activation"
  else input

/-- Dispatch of `normalizeCategory` on the service key. -/
def serviceRules (service : ServiceKey) : String → String :=
  match service with
  | .smart_teller => smartTellerRules
  | .cards => cardsRules
  | .flexcube => flexcubeRules
  | .ibps => ibpsRules
  | .mfs => mfsRules

/-- `normalizeCategory` from `src/src/utils/categoryNormalizer.ts`: collapses
raw free-text third-level category variants into canonical labels using
ordered case-insensitive substring / startsWith rules per service, falling
through to the trimmed input when no rule matches. -/
def normalizeCategory (service : ServiceKey) (rawCategory : Option String) : String :=
  let input := jsTrim (rawCategory.getD "")
  if input == "" then "" else serviceRules service input

/-! ### Idempotence of the category normalizer (claim C9) -/

/-- The canonical labels each service's rule chain can produce. -/
def canonLabels (service : ServiceKey) : List String :=
  match service with
  | .smart_teller =>
    ["Interface freezing, slow and or unresponsive", "Core Banking Error",
     "Assign application to user on Smart Teller", "Transaction Failure"]
  | .cards =>
    ["Card Issuance Connectivity issues", "Card Complain with error code",
     "Card error", "Challenges on indigo"]
  | .flexcube =>
    ["Account Maintenance", "Cheque Book", "Account Closure", "Account Class Transfer"]
  | .ibps =>
    ["Account Opening Challenges", "AO update Challenges", "Account Maintenance",
     "FT validation issue"]
  | .mfs =>
    ["Issue creating virtual cards", "Onboarding - Non recipient OTP",
     "Onboarding related", "Account Activation"]

/-! ## Trend Pattern Analyzer and Insight Generator
(`src/src/utils/insightsGenerator.ts`)

`TrendData.count` is a period cardinality (number of tickets in the period),
hence modelled as `Nat`.  Averages, percentages and thresholds are exact
rationals.  The `message` / `recommendation` display strings of
`TrendInsight` are presentation-only (`toFixed`-formatted copies of the
numeric quantities defined below) and are omitted from the embedding; the
`severity`, `title` and `icon` fields are kept verbatim. -/

/-- One point of a time-ordered trend series (`TrendData` of `src/src/types`). -/
structure TrendData where
  period : String
  count : Nat
deriving DecidableEq, Repr

/-- Momentum classification of `analyzeTrendPattern`. -/
inductive Momentum where
  | accelerating | decelerating | steady
deriving DecidableEq, Repr

/-- Result record of `analyzeTrendPattern`. -/
structure TrendPattern where
  isIncreasing : Bool
  isDecreasing : Bool
  isVolatile : Bool
  isStable : Bool
  momentum : Momentum
deriving DecidableEq, Repr

/-- Severity tag of a generated insight. -/
inductive Severity where
  | critical | warning | positive | neutral
deriving DecidableEq, Repr

/-- Icon class of a generated insight. -/
inductive Icon where
  | alert | warning | success | info
deriving DecidableEq, Repr

/-- A generated insight (without its display strings, see section comment). -/
structure TrendInsight where
  severity : Severity
  title : String
  icon : Icon
deriving DecidableEq, Repr

/-- Consecutive period-over-period deltas:
`data.slice(1).map((item, idx) => item.count - data[idx].count)`. -/
def deltasOf (data : List TrendData) : List Int :=
  List.zipWith (fun a b => (a.count : Int) - (b.count : Int)) (data.drop 1) data

/-- `analyzeTrendPattern` from `src/src/utils/insightsGenerator.ts`.

The source compares `volatilityRatio = Math.sqrt(variance) / avgVolume`
against `0.3` and `0.15`.  To keep the embedding in exact rational
arithmetic the square root is eliminated: for `avgVolume > 0`,
`sqrt variance / avgVolume > c ↔ variance > (c * avgVolume)^2`, and the
`avgVolume = 0` disjunct transcribes the IEEE `Infinity`/`NaN` outcomes of
the source (ratio `Infinity > 0.3` is true when `variance > 0`; `NaN`
comparisons are false).  `avgVolume < 0` cannot occur for `Nat` counts; the
corresponding IEEE outcome (negative ratio: not volatile, stable) is
transcribed anyway for completeness. -/
def analyzeTrendPattern (data : List TrendData) : TrendPattern :=
  if data.length < 2 then
    { isIncreasing := false, isDecreasing := false, isVolatile := false,
      isStable := true, momentum := .steady }
  else
    let changes := deltasOf data
    let positiveChanges := (changes.filter (fun c => 0 < c)).length
    let negativeChanges := (changes.filter (fun c => c < 0)).length
    let avgChange : ℚ := (changes.sum : ℚ) / (changes.length : ℚ)
    let variance : ℚ :=
      ((changes.map (fun c => ((c : ℚ) - avgChange) ^ 2)).sum) / (changes.length : ℚ)
    let avgVolume : ℚ := ((data.map (·.count)).sum : ℚ) / (data.length : ℚ)
    let momentum : Momentum :=
      if 3 ≤ changes.length then
        let recentChanges := (changes.drop (changes.length - 3)).map Int.natAbs
        let earlierChanges := (changes.take (changes.length - 3)).map Int.natAbs
        let recentAvg : ℚ := (recentChanges.sum : ℚ) / (recentChanges.length : ℚ)
        let earlierAvg : ℚ :=
          if 0 < earlierChanges.length then
            (earlierChanges.sum : ℚ) / (earlierChanges.length : ℚ)
          else recentAvg
        if earlierAvg * (13 / 10) < recentAvg then .accelerating
        else if recentAvg < earlierAvg * (7 / 10) then .decelerating
        else .steady
      else .steady
    { isIncreasing := decide (negativeChanges < positiveChanges ∧ 0 < avgChange)
      isDecreasing := decide (positiveChanges < negativeChanges ∧ avgChange < 0)
      isVolatile := decide ((0 < avgVolume ∧ ((3 / 10) * avgVolume) ^ 2 < variance) ∨
        (avgVolume = 0 ∧ 0 < variance))
      isStable := decide ((0 < avgVolume ∧ variance < ((3 / 20) * avgVolume) ^ 2) ∨
        avgVolume < 0)
      momentum := momentum }

/-- Placeholder trend point used to model JS index accesses guarded by
length checks (never actually selected in guarded contexts). -/
def defaultPoint : TrendData := { period := "", count := 0 }

/-- `trend[trend.length - 1]` (the latest period). -/
def latestOf (trend : List TrendData) : TrendData := trend.getLastD defaultPoint

/-- `trend[trend.length - 2]` (the previous period). -/
def previousOf (trend : List TrendData) : TrendData := trend.dropLast.getLastD defaultPoint

/-- `latest.count - previous.count`, the latest-vs-previous-period change
computed by both insight entry points. -/
def changeOf (trend : List TrendData) : Int :=
  ((latestOf trend).count : Int) - ((previousOf trend).count : Int)

/-- The latest-vs-previous-period percent change computed by both insight
entry points: `previous.count > 0 ? change / previous.count * 100 : 0`. -/
def latestPrevPercentChange (trend : List TrendData) : ℚ :=
  if 0 < (previousOf trend).count then
    ((changeOf trend : ℚ) / ((previousOf trend).count : ℚ)) * 100
  else 0

/-- Icon attached to the week/month-over-week/month change insight:
`severity === 'critical' ? 'alert' : severity === 'warning' ? 'warning' :
severity === 'positive' ? 'success' : 'info'`. -/
def iconForSeverity (s : Severity) : Icon :=
  match s with
  | .critical => .alert
  | .warning => .warning
  | .positive => .success
  | .neutral => .info

/-- `generateWeeklyInsights` from `src/src/utils/insightsGenerator.ts`
(severity / title / icon content; display strings omitted). -/
def generateWeeklyInsights (weeklyTrend : List TrendData) : List TrendInsight :=
  if weeklyTrend.length < 2 then
    [{ severity := .neutral, title := "Insufficient Data", icon := .info }]
  else
    let latest := latestOf weeklyTrend
    let first := weeklyTrend.headD defaultPoint
    let change := changeOf weeklyTrend
    let percentChange := latestPrevPercentChange weeklyTrend
    let average : ℚ := ((weeklyTrend.map (·.count)).sum : ℚ) / (weeklyTrend.length : ℚ)
    let pattern := analyzeTrendPattern weeklyTrend
    let magnitude : ℚ := |percentChange|
    let i1 : List TrendInsight :=
      if change ≠ 0 then
        let st : Severity × String :=
          if 0 < change then
            if 50 < magnitude then (.critical, "🚨 Significant Spike Detected")
            else if 20 < magnitude then (.warning, "⚠️ Notable Increase in Volume")
            else (.warning, "📈 Slight Uptick Observed")
          else
            if 50 < magnitude then (.positive, "🎉 Dramatic Improvement")
            else if 20 < magnitude then (.positive, "✅ Significant Reduction")
            else (.positive, "👍 Modest Improvement")
        [{ severity := st.1, title := st.2, icon := iconForSeverity st.1 }]
      else
        [{ severity := .neutral, title := "➡️ Stable Volume", icon := .info }]
    let i2 : List TrendInsight :=
      if pattern.isVolatile ∧ 4 ≤ weeklyTrend.length then
        [{ severity := .warning, title := "🎢 High Volatility Detected", icon := .warning }]
      else []
    let i3 : List TrendInsight :=
      if pattern.momentum = .accelerating ∧ pattern.isIncreasing then
        [{ severity := .critical, title := "🔥 Accelerating Growth", icon := .alert }]
      else []
    let deviationFromAvg : ℚ := (((latest.count : ℚ) - average) / average) * 100
    let i4 : List TrendInsight :=
      if 30 < |deviationFromAvg| then
        [{ severity := if 0 < deviationFromAvg then .warning else .positive,
           title := if 0 < deviationFromAvg then "📊 Well Above Average" else "📊 Well Below Average",
           icon := if 0 < deviationFromAvg then .warning else .success }]
      else []
    let i5 : List TrendInsight :=
      if 3 ≤ weeklyTrend.length then
        let overallChange : Int := (latest.count : Int) - (first.count : Int)
        let overallPercent : ℚ :=
          if 0 < first.count then ((overallChange : ℚ) / (first.count : ℚ)) * 100 else 0
        if 25 < |overallPercent| then
          [{ severity := if 0 < overallChange then .warning else .positive,
             title := "📉 " ++ Nat.repr weeklyTrend.length ++ "-Week Trend: " ++
               (if 0 < overallChange then "Increased" else "Decreased"),
             icon := if 0 < overallChange then .warning else .success }]
        else []
      else []
    (i1 ++ i2 ++ i3 ++ i4 ++ i5).take 3

/-- `generateMonthlyInsights` from `src/src/utils/insightsGenerator.ts`
(severity / title / icon content; display strings omitted). -/
def generateMonthlyInsights (monthlyTrend : List TrendData) : List TrendInsight :=
  if monthlyTrend.length < 2 then
    [{ severity := .neutral, title := "Insufficient Data", icon := .info }]
  else
    let change := changeOf monthlyTrend
    let percentChange := latestPrevPercentChange monthlyTrend
    let average : ℚ := ((monthlyTrend.map (·.count)).sum : ℚ) / (monthlyTrend.length : ℚ)
    let pattern := analyzeTrendPattern monthlyTrend
    let magnitude : ℚ := |percentChange|
    let i1 : List TrendInsight :=
      if change ≠ 0 then
        let st : Severity × String :=
          if 0 < change then
            if 40 < magnitude then (.critical, "🚨 Major Monthly Increase")
            else if 15 < magnitude then (.warning, "📈 Monthly Volume Rising")
            else (.neutral, "➡️ Slight Monthly Increase")
          else
            if 40 < magnitude then (.positive, "🎊 Outstanding Monthly Performance")
            else if 15 < magnitude then (.positive, "✨ Strong Monthly Improvement")
            else (.positive, "👌 Modest Monthly Improvement")
        [{ severity := st.1, title := st.2, icon := iconForSeverity st.1 }]
      else []
    let i2 : List TrendInsight :=
      if 6 ≤ monthlyTrend.length then
        let peakMonth := monthlyTrend.foldl
          (fun mx m => if mx.count < m.count then m else mx) (monthlyTrend.headD defaultPoint)
        let lowMonth := monthlyTrend.foldl
          (fun mn m => if m.count < mn.count then m else mn) (monthlyTrend.headD defaultPoint)
        let range : ℚ := (peakMonth.count : ℚ) - (lowMonth.count : ℚ)
        let rangePercent : ℚ := (range / average) * 100
        if 50 < rangePercent then
          [{ severity := .warning, title := "🌊 High Seasonal Variation", icon := .warning }]
        else []
      else []
    let i3 : List TrendInsight :=
      if pattern.isIncreasing ∧ 3 ≤ monthlyTrend.length then
        [{ severity := .warning, title := "📈 Sustained Upward Trend", icon := .warning }]
      else if pattern.isDecreasing ∧ 3 ≤ monthlyTrend.length then
        [{ severity := .positive, title := "📉 Sustained Improvement", icon := .success }]
      else []
    (i1 ++ i2 ++ i3).take 3

/-! ### Claim C3: latest-vs-previous thresholds of the insight generators -/

/-- Severity/title tiering of the weekly change insight as the spec states
it: thresholds at 20% and 50% magnitude, sign choosing the framing. -/
def weeklyChangeInsightSpec (change : Int) (magnitude : ℚ) : TrendInsight :=
  let st : Severity × String :=
    if 0 < change then
      if 50 < magnitude then (.critical, "🚨 Significant Spike Detected")
      else if 20 < magnitude then (.warning, "⚠️ Notable Increase in Volume")
      else (.warning, "📈 Slight Uptick Observed")
    else
      if 50 < magnitude then (.positive, "🎉 Dramatic Improvement")
      else if 20 < magnitude then (.positive, "✅ Significant Reduction")
      else (.positive, "👍 Modest Improvement")
  { severity := st.1, title := st.2, icon := iconForSeverity st.1 }

/-- Severity/title tiering of the monthly change insight as the code has
it: thresholds at 15% and 40% magnitude (NOT the 20%/50% of the weekly
entry point), sign choosing the framing. -/
def monthlyChangeInsightSpec (change : Int) (magnitude : ℚ) : TrendInsight :=
  let st : Severity × String :=
    if 0 < change then
      if 40 < magnitude then (.critical, "🚨 Major Monthly Increase")
      else if 15 < magnitude then (.warning, "📈 Monthly Volume Rising")
      else (.neutral, "➡️ Slight Monthly Increase")
    else
      if 40 < magnitude then (.positive, "🎊 Outstanding Monthly Performance")
      else if 15 < magnitude then (.positive, "✨ Strong Monthly Improvement")
      else (.positive, "👌 Modest Monthly Improvement")
  { severity := st.1, title := st.2, icon := iconForSeverity st.1 }

/-! ### Claim C7: momentum classification of the trend analyzer -/

/-- The mean absolute value of the last three deltas, as the spec words it. -/
def recentAbsMeanSpec (changes : List Int) : ℚ :=
  ((changes.drop (changes.length - 3)).map (fun c : Int => |(c : ℚ)|)).sum / 3

/-- The mean absolute value of all deltas before the last three, as the
spec words it, with the source's default to the recent mean when no
earlier deltas exist. -/
def earlierAbsMeanSpec (changes : List Int) : ℚ :=
  if changes.length ≤ 3 then recentAbsMeanSpec changes
  else ((changes.take (changes.length - 3)).map (fun c : Int => |(c : ℚ)|)).sum /
    ((changes.length - 3 : Nat) : ℚ)

/-! ## Ticket records and breakdown aggregation

`TicketData` from `src/src/types` (the ticket record interface).  Instants
(`request_time`, `close_time`) are modelled as integer milliseconds since
the Unix epoch (the source stores the injective ISO-8601 rendering of the
same instant).  All fields the parser may leave unset are `Option`s;
`request_time` is required by the interface but the week assigner defends
against missing values, so it is optional in the model as well. -/

/-- The four canonical priority codes. -/
inductive Priority where
  | P1 | P2 | P3 | P4
deriving DecidableEq, Repr

/-- The string rendering of a priority code. -/
def Priority.toStr : Priority → String
  | .P1 => "P1" | .P2 => "P2" | .P3 => "P3" | .P4 => "P4"

/-- A ticket record (`TicketData` interface of `src/src/types`). -/
structure TicketData where
  ticket_id : Option String := none
  request_time : Option Int := none
  close_time : Option Int := none
  week_number : Option Int := none
  week_label : Option String := none
  initiator : Option String := none
  affiliate : Option String := none
  cluster : Option String := none
  service_record_type : Option String := none
  category : Option String := none
  sub_category : Option String := none
  third_lvl_category : Option String := none
  title : Option String := none
  description : Option String := none
  name : Option String := none
  support_group : Option String := none
  process : Option String := none
  process_manager : Option String := none
  priority : Option Priority := none
  status : Option String := none
  resolution : Option String := none
  root_cause : Option String := none
  incident_origin : Option String := none
  sla_indicator : Option String := none
deriving DecidableEq, Repr

/-- Model of the JavaScript defaulting idiom `v || d` for an
optional-string field: both `undefined` and the empty string fall back to
the default. -/
def jsOr (v : Option String) (d : String) : String :=
  match v with
  | none => d
  | some s => if s == "" then d else s

/-- One entry of a breakdown aggregation (`CategoryBreakdown`). -/
structure CategoryBreakdown where
  category : String
  count : Nat
  percentage : ℚ
deriving DecidableEq, Repr

/-- Stable insertion into a sorted list (used to model `Array.prototype.sort`,
which is required to be stable since ES2019; for a consistent comparator a
stable insertion sort produces the identical output). -/
def orderedInsert (le : α → α → Bool) (a : α) : List α → List α
  | [] => [a]
  | b :: l => if le a b then a :: b :: l else b :: orderedInsert le a l

/-- Stable sort modelling `Array.prototype.sort` with a consistent
comparator. -/
def stableSort (le : α → α → Bool) : List α → List α
  | [] => []
  | a :: l => orderedInsert le a (stableSort le l)

/-- Insertion-ordered counting map: JS `Map` iteration follows insertion
order, and `map.set(k, (map.get(k) || 0) + 1)` increments in place. -/
def bumpCount (k : String) : List (String × Nat) → List (String × Nat)
  | [] => [(k, 1)]
  | (k', n) :: rest => if k' == k then (k', n + 1) :: rest else (k', n) :: bumpCount k rest

/-- The `(key, count)` pairs accumulated by one breakdown's counting loop,
in first-insertion order. -/
def countByKey (key : TicketData → String) (data : List TicketData) : List (String × Nat) :=
  data.foldl (fun acc t => bumpCount (key t) acc) []

/-- The unsorted breakdown entries:
`{ category, count, percentage: total > 0 ? (count / total) * 100 : 0 }`. -/
def breakdownEntries (key : TicketData → String) (data : List TicketData) :
    List CategoryBreakdown :=
  (countByKey key data).map (fun kv =>
    { category := kv.1, count := kv.2,
      percentage :=
        if 0 < data.length then ((kv.2 : ℚ) / (data.length : ℚ)) * 100 else 0 })

/-- Descending-count comparator `(a, b) => b.count - a.count`. -/
def descByCount (a b : CategoryBreakdown) : Bool := decide (b.count ≤ a.count)

/-- `list.indexOf(x)`: index of the first occurrence, `-1` when absent. -/
def jsIndexOf (l : List String) (s : String) : Int :=
  match l.findIdx? (fun x => x == s) with
  | some i => (i : Int)
  | none => -1

/-- The fixed priority ordering `['P1', 'P2', 'P3', 'P4', 'Unassigned']`
used by the priority breakdown comparator. -/
def priorityOrder : List String := ["P1", "P2", "P3", "P4", "Unassigned"]

/-- Comparator `(a, b) => order.indexOf(a.category) - order.indexOf(b.category)`. -/
def priorityLe (a b : CategoryBreakdown) : Bool :=
  decide (jsIndexOf priorityOrder a.category ≤ jsIndexOf priorityOrder b.category)

/-- `calculateCategoryBreakdown` (analytics dashboard component): groups by
`third_lvl_category || 'Uncategorized'`, sorts by descending count. -/
def calculateCategoryBreakdown (data : List TicketData) : List CategoryBreakdown :=
  stableSort descByCount (breakdownEntries (fun t => jsOr t.third_lvl_category "Uncategorized") data)

/-- `calculatePriorityBreakdown`: groups by `priority || 'Unassigned'`,
sorts by the fixed priority order. -/
def calculatePriorityBreakdown (data : List TicketData) : List CategoryBreakdown :=
  stableSort priorityLe
    (breakdownEntries (fun t => (t.priority.map Priority.toStr).getD "Unassigned") data)

/-- `calculateStatusBreakdown`: groups by `status || 'Unknown'`. -/
def calculateStatusBreakdown (data : List TicketData) : List CategoryBreakdown :=
  stableSort descByCount (breakdownEntries (fun t => jsOr t.status "Unknown") data)

/-- `calculateClusterBreakdown`: groups by `cluster || 'Unassigned'`. -/
def calculateClusterBreakdown (data : List TicketData) : List CategoryBreakdown :=
  stableSort descByCount (breakdownEntries (fun t => jsOr t.cluster "Unassigned") data)

/-- `calculateAffiliateBreakdown`: groups by `affiliate || 'Unassigned'`,
truncated to the top 15 after sorting. -/
def calculateAffiliateBreakdown (data : List TicketData) : List CategoryBreakdown :=
  (stableSort descByCount (breakdownEntries (fun t => jsOr t.affiliate "Unassigned") data)).take 15

/-- `calculateRecordTypeBreakdown`: groups by
`service_record_type || 'Unknown'`, truncated to the top 10 after sorting. -/
def calculateRecordTypeBreakdown (data : List TicketData) : List CategoryBreakdown :=
  (stableSort descByCount
    (breakdownEntries (fun t => jsOr t.service_record_type "Unknown") data)).take 10

/-- `calculateSupportGroupBreakdown`: groups by
`support_group || 'Unassigned'`, truncated to the top 10 after sorting. -/
def calculateSupportGroupBreakdown (data : List TicketData) : List CategoryBreakdown :=
  (stableSort descByCount
    (breakdownEntries (fun t => jsOr t.support_group "Unassigned") data)).take 10

/-- `calculateInitiatorBreakdown`: groups by `initiator || 'Unknown'`,
truncated to the top 10 after sorting. -/
def calculateInitiatorBreakdown (data : List TicketData) : List CategoryBreakdown :=
  (stableSort descByCount
    (breakdownEntries (fun t => jsOr t.initiator "Unknown") data)).take 10

/-- The sum of the percentages of a breakdown's returned entries. -/
def pctSum (l : List CategoryBreakdown) : ℚ := (l.map (·.percentage)).sum

/-- Every entry's percentage equals `count / total * 100` for the given
record count. -/
def pctExact (total : Nat) (l : List CategoryBreakdown) : Prop :=
  ∀ e ∈ l, e.percentage = ((e.count : ℚ) / (total : ℚ)) * 100

/-- Eleven tickets with eleven distinct record types: one more than the
top-10 truncation of the record-type breakdown keeps. -/
def elevenRecordTypes : List TicketData :=
  [{ service_record_type := some "RT01" }, { service_record_type := some "RT02" },
   { service_record_type := some "RT03" }, { service_record_type := some "RT04" },
   { service_record_type := some "RT05" }, { service_record_type := some "RT06" },
   { service_record_type := some "RT07" }, { service_record_type := some "RT08" },
   { service_record_type := some "RT09" }, { service_record_type := some "RT10" },
   { service_record_type := some "RT11" }]

/-! ## Week Assigner (`calculateWeekNumbers`, `src/src/utils/excelParser.ts`)

The assigner floors the batch's earliest instant to the start of its local
day (`minDate.setHours(0,0,0,0)`); the host timezone is the explicit
parameter `tz` (milliseconds east of UTC). -/

/-- The check `!t.week_label || t.week_label.trim() === ''` selecting
records that still need a week assignment. -/
def blankWeekLabel (t : TicketData) : Bool :=
  match t.week_label with
  | none => true
  | some s => isBlankStr s

/-- Floor an instant to the start of its local day. -/
def floorToLocalDay (tz ms : Int) : Int :=
  ((ms + tz).fdiv 86400000) * 86400000 - tz

/-- The per-record body of `calculateWeekNumbers`: keep records with a
non-blank `week_label` or no `request_time`, otherwise assign
`week_number = floor(floor((request_time - minDate) / 86400000) / 7) + 1`
and `week_label = "Week <n>"`. -/
def assignWeek (minDate : Int) (t : TicketData) : TicketData :=
  if blankWeekLabel t = false then t
  else
    match t.request_time with
    | none => t
    | some r =>
      let diffDays := (r - minDate).fdiv 86400000
      let weekNumber := diffDays.fdiv 7 + 1
      { t with week_number := some weekNumber,
               week_label := some ("Week " ++ toString weekNumber) }

/-- `calculateWeekNumbers` from `src/src/utils/excelParser.ts`. -/
def calculateWeekNumbers (tz : Int) (tickets : List TicketData) : List TicketData :=
  if tickets = [] then tickets
  else
    let ticketsNeedingWeeks := tickets.filter (fun t => blankWeekLabel t)
    if ticketsNeedingWeeks = [] then tickets
    else
      match tickets.filterMap (fun t => t.request_time) with
      | [] => tickets
      | d :: ds =>
        let minDate := floorToLocalDay tz (ds.foldl min d)
        tickets.map (assignWeek minDate)

/-! ## Date Normalizer (`parseDate`, `src/src/utils/excelParser.ts`)

Instants are integer milliseconds since the Unix epoch;
`Date.prototype.toISOString` is injective on instants, so the ISO string
the source returns is identified with the instant.  Local-time
construction (`new Date(y, m, d, h, mi, s)`) subtracts the explicit
timezone offset `tz` (milliseconds east of UTC, constant offset — DST
transitions are not modelled).  The ECMAScript `MakeDay`/`MakeTime`
normalization (month and day overflow) is implemented exactly; `TimeClip`
rejects instants beyond ±8.64e15 ms. -/

/-- Leap year predicate of the proleptic Gregorian calendar. -/
def isLeap (y : Int) : Bool := (y % 4 == 0 && y % 100 != 0) || y % 400 == 0

/-- Days in a (1-based) month. -/
def daysInMonth (y m : Int) : Int :=
  if m == 2 then (if isLeap y then 29 else 28)
  else if m == 4 || m == 6 || m == 9 || m == 11 then 30
  else 31

/-- Days between 1970-01-01 and the given civil date (1-based month),
negative before the epoch (standard days-from-civil algorithm). -/
def daysFromCivil (y m d : Int) : Int :=
  let y' := if m ≤ 2 then y - 1 else y
  let era := y'.fdiv 400
  let yoe := y' - era * 400
  let mp := (m + 9).emod 12
  let doy := (153 * mp + 2).fdiv 5 + d - 1
  let doe := yoe * 365 + yoe.fdiv 4 - yoe.fdiv 100 + doy
  era * 146097 + doe - 719468

/-- ECMAScript `MakeDay(y, m, dt)` with a 0-based, possibly overflowing
month and day: the day number of the resulting instant. -/
def jsMakeDay (y m0 dt : Int) : Int :=
  let ym := y + m0.fdiv 12
  let mn := m0.emod 12
  daysFromCivil ym (mn + 1) 1 + (dt - 1)

/-- `new Date(y, m0, dt, h, mi, s)` in local time: the UTC instant, or
`none` when `TimeClip` yields `NaN` (instant beyond ±8.64e15 ms). -/
def jsNewDateLocal (tz y m0 dt h mi s : Int) : Option Int :=
  let t := jsMakeDay y m0 dt * 86400000 + (h * 3600000 + mi * 60000 + s * 1000) - tz
  if t.natAbs ≤ 8640000000000000 then some t else none

/-- The UTC midnight instant of a valid civil date (1-based month). -/
def utcMidnight (y m d : Int) : Int := daysFromCivil y m d * 86400000

/-- Maximal digit prefix and the rest. -/
def spanDigits (l : List Char) : List Char × List Char :=
  (l.takeWhile Char.isDigit, l.dropWhile Char.isDigit)

/-- Maximal letter prefix and the rest. -/
def spanLetters (l : List Char) : List Char × List Char :=
  (l.takeWhile Char.isAlpha, l.dropWhile Char.isAlpha)

/-- Numeric value of a digit run. -/
def digitsToNat (l : List Char) : Nat :=
  l.foldl (fun a c => a * 10 + (c.toNat - 48)) 0

/-- The separator class `[\/\-\.]` of the day-first and year-first date
regexes. -/
def isSepChar (c : Char) : Bool := c == '/' || c == '-' || c == '.'

/-- The three-letter month prefix lookup (`monthMap`), case-insensitive:
0-based month index. -/
def monthIdx (l : List Char) : Option Nat :=
  let k := String.mk ((l.take 3).map Char.toLower)
  if k == "jan" then some 0 else if k == "feb" then some 1
  else if k == "mar" then some 2 else if k == "apr" then some 3
  else if k == "may" then some 4 else if k == "jun" then some 5
  else if k == "jul" then some 6 else if k == "aug" then some 7
  else if k == "sep" then some 8 else if k == "oct" then some 9
  else if k == "nov" then some 10 else if k == "dec" then some 11
  else none

/-- Match the optional trailing `\s*(AM|PM)?$` (when `allowAmpm`), or bare
end of input: returns the AM/PM flag (`some true` = PM). -/
def ampmTail (allowAmpm : Bool) (l : List Char) : Option (Option Bool) :=
  if allowAmpm then
    match l.dropWhile isWS with
    | [] => some none
    | [a, m] =>
      if a.toLower == 'a' && m.toLower == 'm' then some (some false)
      else if a.toLower == 'p' && m.toLower == 'm' then some (some true)
      else none
    | _ => none
  else
    match l with
    | [] => some none
    | _ => none

/-- Match the optional anchored time tail
`(?:\s+(\d{1,2}):(\d{2})(?::(\d{2}))?(\s*(AM|PM))?)?$` of the date
regexes: `(hour, minute, second, amPm)`, defaulting to midnight when the
input is exhausted. -/
def parseTimeTail (allowAmpm : Bool) (l : List Char) : Option (Nat × Nat × Nat × Option Bool) :=
  match l with
  | [] => some (0, 0, 0, none)
  | _ =>
    let ws := l.takeWhile isWS
    let r1 := l.dropWhile isWS
    if ws.isEmpty then none else
    let hd := (spanDigits r1).1
    let r2 := (spanDigits r1).2
    if hd.length == 0 || decide (2 < hd.length) then none else
    match r2 with
    | ':' :: r3 =>
      let md := (spanDigits r3).1
      let r4 := (spanDigits r3).2
      if md.length != 2 then none else
      match r4 with
      | ':' :: r4' =>
        let sd := (spanDigits r4').1
        let r5 := (spanDigits r4').2
        if sd.length != 2 then none else
        (ampmTail allowAmpm r5).map
          (fun pm => (digitsToNat hd, digitsToNat md, digitsToNat sd, pm))
      | r5 =>
        (ampmTail allowAmpm r5).map
          (fun pm => (digitsToNat hd, digitsToNat md, 0, pm))
    | _ => none

/-- Strategy (b): the `DD/MM/YYYY` regex with optional time and AM/PM,
trying day-first and falling back to `MM/DD/YYYY` when `day > 12`
(`src/src/utils/excelParser.ts` lines 80-112). -/
def ddmmStrategy (tz : Int) (s : String) : Option Int :=
  let l := s.data
  let d1 := (spanDigits l).1
  let r1 := (spanDigits l).2
  if d1.length == 0 || decide (2 < d1.length) then none else
  match r1 with
  | c1 :: r2 =>
    if isSepChar c1 = false then none else
    let d2 := (spanDigits r2).1
    let r3 := (spanDigits r2).2
    if d2.length == 0 || decide (2 < d2.length) then none else
    match r3 with
    | c2 :: r4 =>
      if isSepChar c2 = false then none else
      let d3 := (spanDigits r4).1
      let r5 := (spanDigits r4).2
      if d3.length != 4 then none else
      match parseTimeTail true r5 with
      | none => none
      | some (h0, mi, sec, ampm) =>
        let day := digitsToNat d1
        let month := digitsToNat d2
        let year := digitsToNat d3
        let hour : Nat :=
          match ampm with
          | some true => if h0 < 12 then h0 + 12 else h0
          | some false => if h0 == 12 then 0 else h0
          | none => h0
        let try1 : Option Int :=
          if day ≤ 31 && month ≤ 12 then
            jsNewDateLocal tz year ((month : Int) - 1) day hour mi sec
          else none
        match try1 with
        | some t => some t
        | none =>
          if decide (12 < day) && decide (month ≤ 31) then
            jsNewDateLocal tz year ((day : Int) - 1) month hour mi sec
          else none
    | [] => none
  | [] => none

/-- Strategy (c): the `YYYY-MM-DD` regex with optional time (no AM/PM),
constructed in local time with no range checks
(`src/src/utils/excelParser.ts` lines 114-128). -/
def ymdStrategy (tz : Int) (s : String) : Option Int :=
  let l := s.data
  let d1 := (spanDigits l).1
  let r1 := (spanDigits l).2
  if d1.length != 4 then none else
  match r1 with
  | c1 :: r2 =>
    if isSepChar c1 = false then none else
    let d2 := (spanDigits r2).1
    let r3 := (spanDigits r2).2
    if d2.length == 0 || decide (2 < d2.length) then none else
    match r3 with
    | c2 :: r4 =>
      if isSepChar c2 = false then none else
      let d3 := (spanDigits r4).1
      let r5 := (spanDigits r4).2
      if d3.length == 0 || decide (2 < d3.length) then none else
      match parseTimeTail false r5 with
      | none => none
      | some (h, mi, sec, _) =>
        jsNewDateLocal tz (digitsToNat d1) ((digitsToNat d2 : Int) - 1) (digitsToNat d3) h mi sec
    | [] => none
  | [] => none

/-- The single-character separator class `[\s\-]` of the `DD Mon YYYY`
regex. -/
def isWSorDash (c : Char) : Bool := isWS c || c == '-'

/-- Strategy (d1): the `DD Mon YYYY` regex (`(\d{1,2})[\s\-](Mon)[a-z]*[\s\-](\d{4})`
with optional time), case-insensitive month names
(`src/src/utils/excelParser.ts` lines 130-147). -/
def ddMonStrategy (tz : Int) (s : String) : Option Int :=
  let l := s.data
  let d1 := (spanDigits l).1
  let r1 := (spanDigits l).2
  if d1.length == 0 || decide (2 < d1.length) then none else
  match r1 with
  | c1 :: r2 =>
    if isWSorDash c1 = false then none else
    let ms := (spanLetters r2).1
    let r3 := (spanLetters r2).2
    if decide (ms.length < 3) then none else
    match monthIdx ms with
    | none => none
    | some m0 =>
      match r3 with
      | c2 :: r4 =>
        if isWSorDash c2 = false then none else
        let d3 := (spanDigits r4).1
        let r5 := (spanDigits r4).2
        if d3.length != 4 then none else
        match parseTimeTail false r5 with
        | none => none
        | some (h, mi, sec, _) =>
          jsNewDateLocal tz (digitsToNat d3) (m0 : Int) (digitsToNat d1) h mi sec
      | [] => none
  | [] => none

/-- Strategy (d2): the `Mon DD, YYYY` regex
(`(Mon)[a-z]*\s+(\d{1,2}),?\s+(\d{4})` with optional time),
case-insensitive month names (`src/src/utils/excelParser.ts` lines
149-166). -/
def monDdStrategy (tz : Int) (s : String) : Option Int :=
  let l := s.data
  let ms := (spanLetters l).1
  let r1 := (spanLetters l).2
  if decide (ms.length < 3) then none else
  match monthIdx ms with
  | none => none
  | some m0 =>
    let ws1 := r1.takeWhile isWS
    let r2 := r1.dropWhile isWS
    if ws1.isEmpty then none else
    let d1 := (spanDigits r2).1
    let r3 := (spanDigits r2).2
    if d1.length == 0 || decide (2 < d1.length) then none else
    let r4 := match r3 with
      | ',' :: rest => rest
      | rest => rest
    let ws2 := r4.takeWhile isWS
    let r5 := r4.dropWhile isWS
    if ws2.isEmpty then none else
    let d2 := (spanDigits r5).1
    let r6 := (spanDigits r5).2
    if d2.length != 4 then none else
    match parseTimeTail false r6 with
    | none => none
    | some (h, mi, sec, _) =>
      jsNewDateLocal tz (digitsToNat d2) (m0 : Int) (digitsToNat d1) h mi sec

/-- Syntactic layer of `parseFloat`: optional sign, decimal digits with an
optional fraction (at least one mantissa digit), optional well-formed
exponent (a malformed exponent is ignored, as in `parseFloat("1e")`),
trailing garbage ignored.  Returns
`(isNegative, mantissaDigits, fractionLength, exponent)` where the
mantissa value is `mantissaDigits / 10 ^ fractionLength`. -/
def parseFloatParts (s : String) : Option (Bool × Nat × Nat × Int) :=
  let l := s.data.dropWhile isWS
  let (neg, l1) : Bool × List Char :=
    match l with
    | '-' :: rest => (true, rest)
    | '+' :: rest => (false, rest)
    | rest => (false, rest)
  let ip := (spanDigits l1).1
  let r1 := (spanDigits l1).2
  let (fp, r2) : List Char × List Char :=
    match r1 with
    | '.' :: rest => ((spanDigits rest).1, (spanDigits rest).2)
    | rest => ([], rest)
  if ip.isEmpty && fp.isEmpty then none
  else
    let mant := digitsToNat ip * 10 ^ fp.length + digitsToNat fp
    let e : Int :=
      match r2 with
      | 'e' :: rest => parseExponent rest
      | 'E' :: rest => parseExponent rest
      | _ => 0
    some (neg, mant, fp.length, e)
where
  /-- The optional exponent digits; 0 when malformed (exponent ignored). -/
  parseExponent (l : List Char) : Int :=
    let (eneg, l1) : Bool × List Char :=
      match l with
      | '-' :: rest => (true, rest)
      | '+' :: rest => (false, rest)
      | rest => (false, rest)
    let ed := (spanDigits l1).1
    if ed.isEmpty then 0
    else if eneg then -(digitsToNat ed : Int) else (digitsToNat ed : Int)

/-- Numeric layer of `parseFloat`: the rational value, `NaN` as `none`.
IEEE-754 rounding of the decimal literal is not modelled (exact rational
value instead). -/
def jsParseFloat (s : String) : Option ℚ :=
  (parseFloatParts s).map (fun p =>
    let m : ℚ := (p.2.1 : ℚ) / (10 : ℚ) ^ p.2.2.1
    let v : ℚ := if p.1 then -m else m
    v * (10 : ℚ) ^ p.2.2.2)

/-- Truncation toward zero (`ToIntegerOrInfinity` inside `TimeClip`). -/
def ratTrunc (q : ℚ) : Int := if 0 ≤ q then ⌊q⌋ else -⌊-q⌋

/-- Strategy (e): spreadsheet serial conversion
`new Date(new Date(1899, 11, 30).getTime() + serial * 86400000)`
(`src/src/utils/excelParser.ts` lines 168-177). -/
def excelSerialToMs (tz : Int) (v : ℚ) : Option Int :=
  match jsNewDateLocal tz 1899 11 30 0 0 0 with
  | none => none
  | some epoch =>
    let t : ℚ := (epoch : ℚ) + v * 86400000
    if |t| ≤ 8640000000000000 then some (ratTrunc t) else none

/-- The serial-number branch: `parseFloat` value strictly between 0 and
100000, converted as days since 1899-12-30. -/
def serialStrategy (tz : Int) (s : String) : Option Int :=
  match jsParseFloat s with
  | none => none
  | some v => if 0 < v ∧ v < 100000 then excelSerialToMs tz v else none

/-- Modelled from the host JavaScript engine: strategy (a) is
`new Date(string)`, whose accepted formats beyond ISO 8601 are
implementation-defined.  This models the V8 fragment exercised by the
repository's inputs: a strict ISO date-only form `YYYY-MM-DD` (parsed as
UTC midnight per ECMA-262) and year-only `YYYY`; the legacy forms
`M/D/YYYY` (month-first, real calendar-range checked) and the month-name
forms `Mon D YYYY` / `D Mon YYYY` / `Mon D, YYYY` (parsed as local
midnight).  All other strings are modelled as unparseable. -/
def jsGenericParse (tz : Int) (s : String) : Option Int :=
  let l := s.data
  match isoDateOnly l with
  | some t => some t
  | none =>
  match legacyMDY tz l with
  | some t => some t
  | none => legacyMonthName tz l
where
  /-- `YYYY-MM-DD` (strict: 4-2-2 digits) or `YYYY`, UTC midnight. -/
  isoDateOnly (l : List Char) : Option Int :=
    let d1 := (spanDigits l).1
    let r1 := (spanDigits l).2
    if d1.length != 4 then none else
    let y : Int := digitsToNat d1
    match r1 with
    | [] => some (utcMidnight y 1 1)
    | '-' :: r2 =>
      let d2 := (spanDigits r2).1
      let r3 := (spanDigits r2).2
      if d2.length != 2 then none else
      match r3 with
      | '-' :: r4 =>
        let d3 := (spanDigits r4).1
        let r5 := (spanDigits r4).2
        if d3.length != 2 then none else
        if r5.isEmpty = false then none else
        let m : Int := digitsToNat d2
        let d : Int := digitsToNat d3
        if 1 ≤ m ∧ m ≤ 12 ∧ 1 ≤ d ∧ d ≤ daysInMonth y m then
          some (utcMidnight y m d)
        else none
      | _ => none
    | _ => none
  /-- Legacy `M/D/YYYY`, month-first, local midnight. -/
  legacyMDY (tz : Int) (l : List Char) : Option Int :=
    let d1 := (spanDigits l).1
    let r1 := (spanDigits l).2
    if d1.length == 0 || decide (2 < d1.length) then none else
    match r1 with
    | '/' :: r2 =>
      let d2 := (spanDigits r2).1
      let r3 := (spanDigits r2).2
      if d2.length == 0 || decide (2 < d2.length) then none else
      match r3 with
      | '/' :: r4 =>
        let d3 := (spanDigits r4).1
        let r5 := (spanDigits r4).2
        if d3.length != 4 then none else
        if r5.isEmpty = false then none else
        let m : Int := digitsToNat d1
        let d : Int := digitsToNat d2
        let y : Int := digitsToNat d3
        if 1 ≤ m ∧ m ≤ 12 ∧ 1 ≤ d ∧ d ≤ daysInMonth y m then
          jsNewDateLocal tz y (m - 1) d 0 0 0
        else none
      | _ => none
    | _ => none
  /-- Legacy month-name forms, local midnight. -/
  legacyMonthName (tz : Int) (l : List Char) : Option Int :=
    let ms := (spanLetters l).1
    let r1 := (spanLetters l).2
    if decide (3 ≤ ms.length) then
      -- `Mon D[,] YYYY`
      match monthIdx ms with
      | none => none
      | some m0 =>
        let ws1 := r1.takeWhile isWS
        let r2 := r1.dropWhile isWS
        if ws1.isEmpty then none else
        let d1 := (spanDigits r2).1
        let r3 := (spanDigits r2).2
        if d1.length == 0 || decide (2 < d1.length) then none else
        let r4 := match r3 with
          | ',' :: rest => rest
          | rest => rest
        let ws2 := r4.takeWhile isWS
        let r5 := r4.dropWhile isWS
        if ws2.isEmpty then none else
        let d2 := (spanDigits r5).1
        let r6 := (spanDigits r5).2
        if d2.length != 4 then none else
        if r6.isEmpty = false then none else
        let y : Int := digitsToNat d2
        let d : Int := digitsToNat d1
        if 1 ≤ d ∧ d ≤ daysInMonth y ((m0 : Int) + 1) then
          jsNewDateLocal tz y (m0 : Int) d 0 0 0
        else none
    else
      -- `D Mon[,] YYYY`
      let d1 := (spanDigits l).1
      let r1' := (spanDigits l).2
      if d1.length == 0 || decide (2 < d1.length) then none else
      let ws1 := r1'.takeWhile isWS
      let r2 := r1'.dropWhile isWS
      if ws1.isEmpty then none else
      let ms2 := (spanLetters r2).1
      let r3 := (spanLetters r2).2
      if decide (ms2.length < 3) then none else
      match monthIdx ms2 with
      | none => none
      | some m0 =>
        let r4 := match r3 with
          | ',' :: rest => rest
          | rest => rest
        let ws2 := r4.takeWhile isWS
        let r5 := r4.dropWhile isWS
        if ws2.isEmpty then none else
        let d2 := (spanDigits r5).1
        let r6 := (spanDigits r5).2
        if d2.length != 4 then none else
        if r6.isEmpty = false then none else
        let y : Int := digitsToNat d2
        let d : Int := digitsToNat d1
        if 1 ≤ d ∧ d ≤ daysInMonth y ((m0 : Int) + 1) then
          jsNewDateLocal tz y (m0 : Int) d 0 0 0
        else none

/-- `parseDate` from `src/src/utils/excelParser.ts`: tries, in order, the
generic engine parse, `DD/MM/YYYY` (with the day>12 month-first fallback),
`YYYY-MM-DD`, the named-month formats, and last the spreadsheet serial
conversion; `none` models the source's `null`. -/
def parseDate (tz : Int) (dateStr : String) : Option Int :=
  if isBlankStr dateStr then none
  else
    let trimmed := jsTrim dateStr
    match jsGenericParse tz trimmed with
    | some t => some t
    | none =>
    match ddmmStrategy tz trimmed with
    | some t => some t
    | none =>
    match ymdStrategy tz trimmed with
    | some t => some t
    | none =>
    match ddMonStrategy tz trimmed with
    | some t => some t
    | none =>
    match monDdStrategy tz trimmed with
    | some t => some t
    | none => serialStrategy tz trimmed

/-! ## Row Parser (`parseExcelData`, `src/src/utils/excelParser.ts`)

The CSV tokenizer (Papa Parse) is an external collaborator: the model
takes its output — the trimmed header list (`result.meta.fields`), the
row objects (each a header-to-cell association), and the tokenizer's
error list — as the input.  `Date.now()` is the explicit parameter `now`;
the host timezone is `tz` as elsewhere.  The outer `try/catch` (which
converts a tokenizer exception into one error string) is outside the
model: exceptions cannot occur in the modelled fragment. -/

/-- A tokenizer error (`Papa.ParseError`): row index, error code, message. -/
structure PapaError where
  row : Option Nat
  code : String
  message : String
deriving DecidableEq, Repr

/-- The tokenizer output handed to `parseExcelData`. -/
structure PapaResult where
  fields : List String
  data : List (List (String × String))
  errors : List PapaError
deriving DecidableEq, Repr

/-- The result record of `parseExcelData`. -/
structure ParsedData where
  data : List TicketData
  errors : List String
  warnings : List String
deriving DecidableEq, Repr

/-- The canonical field names (`keyof TicketData` values of
`COLUMN_MAPPING`). -/
inductive Field where
  | ticket_id | request_time | week_label | initiator | affiliate | cluster
  | service_record_type | category | sub_category | third_lvl_category | title
  | description | name | support_group | process | process_manager | priority
  | status | resolution | root_cause | incident_origin | close_time | sla_indicator
deriving DecidableEq, Repr

/-- `normalizeColumnName`: case-insensitive trimmed lookup in
`COLUMN_MAPPING`; `none` for unrecognized headers. -/
def normalizeColumnName (header : String) : Option Field :=
  let n := jsToLower (jsTrim header)
  if n == "ticket id" then some .ticket_id
  else if n == "ticketid" then some .ticket_id
  else if n == "request time" then some .request_time
  else if n == "requesttime" then some .request_time
  else if n == "week" then some .week_label
  else if n == "weeks" then some .week_label
  else if n == "initiator" then some .initiator
  else if n == "affiliate" then some .affiliate
  else if n == "cluster" then some .cluster
  else if n == "clusters" then some .cluster
  else if n == "service record type" then some .service_record_type
  else if n == "servicerecordtype" then some .service_record_type
  else if n == "record type" then some .service_record_type
  else if n == "category" then some .category
  else if n == "sub-category" then some .sub_category
  else if n == "subcategory" then some .sub_category
  else if n == "sub category" then some .sub_category
  else if n == "third lvl category" then some .third_lvl_category
  else if n == "third level category" then some .third_lvl_category
  else if n == "thirdlvlcategory" then some .third_lvl_category
  else if n == "3rd lvl category" then some .third_lvl_category
  else if n == "title" then some .title
  else if n == "description" then some .description
  else if n == "name" then some .name
  else if n == "support group" then some .support_group
  else if n == "supportgroup" then some .support_group
  else if n == "process" then some .process
  else if n == "process manager" then some .process_manager
  else if n == "processmanager" then some .process_manager
  else if n == "manager" then some .process_manager
  else if n == "priority" then some .priority
  else if n == "status" then some .status
  else if n == "resolution" then some .resolution
  else if n == "root cause" then some .root_cause
  else if n == "rootcause" then some .root_cause
  else if n == "incident origin" then some .incident_origin
  else if n == "incidentorigin" then some .incident_origin
  else if n == "close time" then some .close_time
  else if n == "closetime" then some .close_time
  else if n == "sla indicator" then some .sla_indicator
  else if n == "slaindicator" then some .sla_indicator
  else none

/-- JS `Map.set`: update in place when the key exists, else append. -/
def mapInsert (k : String) (v : Field) : List (String × Field) → List (String × Field)
  | [] => [(k, v)]
  | (k', v') :: rest => if k' == k then (k', v) :: rest else (k', v') :: mapInsert k v rest

/-- The `mappedHeaders` map: each recognized header inserted in header
order. -/
def buildMappedHeaders (headers : List String) : List (String × Field) :=
  headers.foldl (fun acc h =>
    match normalizeColumnName h with
    | some f => mapInsert h f acc
    | none => acc) []

/-- JS `Map.get`. -/
def mapGet (m : List (String × Field)) (k : String) : Option Field :=
  (m.find? (fun kv => kv.1 == k)).map (fun kv => kv.2)

/-- JS `Map.has`. -/
def mapHasKey (m : List (String × Field)) (k : String) : Bool :=
  m.any (fun kv => kv.1 == k)

/-- JS object lookup `row[header]` on a row record. -/
def rowLookup (row : List (String × String)) (h : String) : Option String :=
  (row.find? (fun kv => kv.1 == h)).map (fun kv => kv.2)

/-- The source's check for a missing Ticket ID column:
`!mappedHeaders.has('ticket_id') && !values().includes('ticket_id')`. -/
def missingTicketCol (fields : List String) : Bool :=
  let m := buildMappedHeaders fields
  !(mapHasKey m "ticket_id") && !((m.map (fun kv => kv.2)).contains Field.ticket_id)

/-- The source's check for a missing Request Time column. -/
def missingRequestCol (fields : List String) : Bool :=
  let m := buildMappedHeaders fields
  !(mapHasKey m "request_time") && !((m.map (fun kv => kv.2)).contains Field.request_time)

/-- `validatePriority` from `src/src/utils/excelParser.ts`: exact match,
then the first embedded `P[1-4]` token, then the fixed word map by
substring, else `undefined`. -/
def validatePriority (priority : String) : Option Priority :=
  if priority == "" then none
  else
    let normalized := jsTrim (jsToUpper priority)
    if normalized == "P1" then some .P1
    else if normalized == "P2" then some .P2
    else if normalized == "P3" then some .P3
    else if normalized == "P4" then some .P4
    else
      match findP14 normalized.data with
      | some p => some p
      | none =>
        if jsIncludes normalized "CRITICAL" then some .P1
        else if jsIncludes normalized "HIGH" then some .P2
        else if jsIncludes normalized "MEDIUM" then some .P3
        else if jsIncludes normalized "LOW" then some .P4
        else if jsIncludes normalized "URGENT" then some .P1
        else if jsIncludes normalized "NORMAL" then some .P3
        else none
where
  /-- First occurrence of `P[1-4]` (the regex search). -/
  findP14 : List Char → Option Priority
    | [] => none
    | c :: rest =>
      if c == 'P' then
        match rest with
        | d :: _ =>
          if d == '1' then some .P1 else if d == '2' then some .P2
          else if d == '3' then some .P3 else if d == '4' then some .P4
          else findP14 rest
        | [] => none
      else findP14 rest

/-- Assignment `ticket[fieldName] = value` for the plain-string fields
(the else-branch of the per-cell dispatch; the three specially-handled
fields are unreachable here and left unchanged). -/
def setStrField (t : TicketData) (f : Field) (v : String) : TicketData :=
  match f with
  | .ticket_id => { t with ticket_id := some v }
  | .week_label => { t with week_label := some v }
  | .initiator => { t with initiator := some v }
  | .affiliate => { t with affiliate := some v }
  | .cluster => { t with cluster := some v }
  | .service_record_type => { t with service_record_type := some v }
  | .category => { t with category := some v }
  | .sub_category => { t with sub_category := some v }
  | .third_lvl_category => { t with third_lvl_category := some v }
  | .title => { t with title := some v }
  | .description => { t with description := some v }
  | .name => { t with name := some v }
  | .support_group => { t with support_group := some v }
  | .process => { t with process := some v }
  | .process_manager => { t with process_manager := some v }
  | .status => { t with status := some v }
  | .resolution => { t with resolution := some v }
  | .root_cause => { t with root_cause := some v }
  | .incident_origin => { t with incident_origin := some v }
  | .sla_indicator => { t with sla_indicator := some v }
  | .request_time => t
  | .close_time => t
  | .priority => t

/-- One cell of the per-row header loop: populate the mapped field
(dates through `parseDate`, priority through `validatePriority`, others
as trimmed strings), collecting warnings. -/
def processCell (tz : Int) (mapped : List (String × Field)) (rowNum : Nat)
    (row : List (String × String)) (acc : TicketData × List String) (header : String) :
    TicketData × List String :=
  match mapGet mapped header, rowLookup row header with
  | some fieldName, some raw =>
    let value := jsTrim raw
    if value == "" then acc
    else if fieldName = .request_time ∨ fieldName = .close_time then
      match parseDate tz value with
      | some ms =>
        if fieldName = .request_time then ({ acc.1 with request_time := some ms }, acc.2)
        else ({ acc.1 with close_time := some ms }, acc.2)
      | none =>
        if fieldName = .request_time then
          (acc.1, acc.2 ++ ["Row " ++ toString rowNum ++ ": Invalid date format in " ++ header])
        else acc
    else if fieldName = .priority then
      match validatePriority value with
      | some p => ({ acc.1 with priority := some p }, acc.2)
      | none =>
        ({ acc.1 with priority := none },
          acc.2 ++ ["Row " ++ toString rowNum ++ ": Invalid priority value \"" ++ value ++
            "\". Expected P1-P4."])
    else (setStrField acc.1 fieldName value, acc.2)
  | _, _ => acc

/-- One row of `parseExcelData`'s row loop: build the partial ticket,
synthesize a surrogate id when `ticket_id` is missing (with a warning),
drop the row (with a warning) when `request_time` is missing. -/
def processRow (tz : Int) (now : Nat) (headers : List String)
    (mapped : List (String × Field)) (idx : Nat) (row : List (String × String)) :
    Option TicketData × List String :=
  let rowNum := idx + 2
  let built := headers.foldl (processCell tz mapped rowNum row) ({}, [])
  let withId : TicketData × List String :=
    if built.1.ticket_id = none then
      let surrogateId := "AUTO-" ++ toString now ++ "-" ++ toString rowNum
      ({ built.1 with ticket_id := some surrogateId },
        built.2 ++ ["Row " ++ toString rowNum ++ ": Missing Ticket ID, generated " ++ surrogateId])
    else built
  if withId.1.request_time = none then
    (none, withId.2 ++ ["Row " ++ toString rowNum ++ ": Missing Request Time, skipping row"])
  else (some withId.1, withId.2)

/-- The full row loop: parsed tickets in order plus accumulated row
warnings. -/
def processRows (tz : Int) (now : Nat) (headers : List String)
    (mapped : List (String × Field)) (rows : List (List (String × String))) :
    List TicketData × List String :=
  (rows.enum).foldl
    (fun acc ir =>
      let r := processRow tz now headers mapped ir.1 ir.2
      match r.1 with
      | some t => (acc.1 ++ [t], acc.2 ++ r.2)
      | none => (acc.1, acc.2 ++ r.2))
    ([], [])

/-- The message for one tokenizer error:
`Row ${err.row + 2 | 'Unknown'}: ${err.message}`. -/
def papaErrorMsg (e : PapaError) : String :=
  "Row " ++ (match e.row with
    | some r => toString (r + 2)
    | none => "Unknown") ++ ": " ++ e.message

/-- Field-count mismatches are downgraded to warnings. -/
def isFieldCountCode (e : PapaError) : Bool :=
  e.code == "TooFewFields" || e.code == "TooManyFields"

/-- `parseExcelData` from `src/src/utils/excelParser.ts` (on the
tokenizer's output): tokenizer errors partitioned into warnings
(field-count codes) and errors, required-column checks, the row loop, and
the final no-valid-data error. -/
def parseExcelData (tz : Int) (now : Nat) (result : PapaResult) : ParsedData :=
  let warnings0 := (result.errors.filter isFieldCountCode).map
    (fun e => papaErrorMsg e ++ " - Row will be skipped if invalid")
  let errors0 := (result.errors.filter (fun e => !isFieldCountCode e)).map papaErrorMsg
  let headers := result.fields
  let errors1 := errors0
    ++ (if missingTicketCol headers then ["Missing required column: Ticket ID"] else [])
    ++ (if missingRequestCol headers then ["Missing required column: Request Time"] else [])
  if errors1 ≠ [] then { data := [], errors := errors1, warnings := warnings0 }
  else
    let mapped := buildMappedHeaders headers
    let rowsOut := processRows tz now headers mapped result.data
    let errors2 := if rowsOut.1 = [] then ["No valid ticket data found in the input"] else []
    { data := rowsOut.1, errors := errors2, warnings := warnings0 ++ rowsOut.2 }

/-! ## Theorems -/

/-! ### Trimming lemmas -/

theorem dropWhile_dropWhile (p : Char → Bool) (l : List Char) :
    (l.dropWhile p).dropWhile p = l.dropWhile p := by
  induction l with
  | nil => rfl
  | cons a t ih =>
    by_cases h : p a
    · simp [List.dropWhile_cons, h, ih]
    · simp [List.dropWhile_cons, h]

theorem dropWhile_head_not {p : Char → Bool} :
    ∀ (l : List Char) {a t}, l.dropWhile p = a :: t → p a = false := by
  intro l
  induction l with
  | nil => intro a t h; simp [List.dropWhile] at h
  | cons b m ih =>
    intro a t h
    by_cases hb : p b
    · rw [List.dropWhile_cons_of_pos hb] at h
      exact ih h
    · rw [List.dropWhile_cons_of_neg hb] at h
      cases h
      simpa using hb

theorem dropTrailingWS_isPrefix (l : List Char) : dropTrailingWS l <+: l := by
  have h : l.reverse.dropWhile isWS <:+ l.reverse := List.dropWhile_suffix _
  have h2 : (l.reverse.dropWhile isWS).reverse <+: l.reverse.reverse :=
    List.reverse_prefix.mpr h
  unfold dropTrailingWS
  simpa using h2

theorem dropTrailingWS_idem (l : List Char) :
    dropTrailingWS (dropTrailingWS l) = dropTrailingWS l := by
  unfold dropTrailingWS
  rw [List.reverse_reverse, dropWhile_dropWhile]

theorem trimChars_idem (l : List Char) : trimChars (trimChars l) = trimChars l := by
  unfold trimChars
  -- it suffices to show the leading-whitespace drop is a no-op on the result
  have hdrop : (dropTrailingWS (l.dropWhile isWS)).dropWhile isWS
      = dropTrailingWS (l.dropWhile isWS) := by
    cases hA : l.dropWhile isWS with
    | nil => simp [dropTrailingWS]
    | cons a t =>
      have ha : isWS a = false := dropWhile_head_not _ hA
      rcases (dropTrailingWS_isPrefix (a :: t)) with ⟨suf, hsuf⟩
      cases hd : dropTrailingWS (a :: t) with
      | nil => rfl
      | cons b t' =>
        rw [hd] at hsuf
        have hb : b = a := by
          have := congrArg (fun x => x.head?) hsuf
          simpa using this
        subst hb
        exact List.dropWhile_cons_of_neg (by simp [ha])
  rw [hdrop, dropTrailingWS_idem]

theorem jsTrim_idem (s : String) : jsTrim (jsTrim s) = jsTrim s := by
  unfold jsTrim
  simp [trimChars_idem]

theorem serviceRules_cases (s : ServiceKey) (input : String) :
    serviceRules s input = input ∨ serviceRules s input ∈ canonLabels s := by
  cases s <;>
    (simp only [serviceRules, smartTellerRules, cardsRules, flexcubeRules, ibpsRules,
       mfsRules, canonLabels]
     repeat' split
     all_goals first
       | (left; rfl)
       | (right; decide))

theorem canonLabels_fixed :
    ∀ s : ServiceKey, ∀ c ∈ canonLabels s, normalizeCategory s (some c) = c := by
  intro s
  cases s <;> decide

/-- C9: `normalizeCategory` is idempotent for every service key: a second
application to the output of a first application is the identity. -/
theorem normalizeCategory_idem (s : ServiceKey) (x : Option String) :
    normalizeCategory s (some (normalizeCategory s x)) = normalizeCategory s x := by
  by_cases h0 : (jsTrim (x.getD "") == "") = true
  · have hin : normalizeCategory s x = "" := by
      simp only [normalizeCategory, h0, if_true]
    rw [hin]
    cases s <;> decide
  · have hin : normalizeCategory s x = serviceRules s (jsTrim (x.getD "")) := by
      simp only [normalizeCategory, h0, Bool.false_eq_true, if_false]
    rcases serviceRules_cases s (jsTrim (x.getD "")) with hc | hc
    · rw [hin, hc]
      have htrim : jsTrim (jsTrim (x.getD "")) = jsTrim (x.getD "") := jsTrim_idem _
      simp only [normalizeCategory, Option.getD_some, htrim, h0, Bool.false_eq_true,
        if_false, hc]
    · rw [hin]
      exact canonLabels_fixed s _ hc

theorem weekly_head_eq (trend : List TrendData)
    (h2 : 2 ≤ trend.length) (hc : changeOf trend ≠ 0) :
    (generateWeeklyInsights trend).head? =
      some (weeklyChangeInsightSpec (changeOf trend) |latestPrevPercentChange trend|) := by
  have hlt : ¬ trend.length < 2 := not_lt.mpr h2
  simp only [generateWeeklyInsights, hlt, if_false, if_pos hc, weeklyChangeInsightSpec]
  simp

theorem monthly_head_eq (trend : List TrendData)
    (h2 : 2 ≤ trend.length) (hc : changeOf trend ≠ 0) :
    (generateMonthlyInsights trend).head? =
      some (monthlyChangeInsightSpec (changeOf trend) |latestPrevPercentChange trend|) := by
  have hlt : ¬ trend.length < 2 := not_lt.mpr h2
  simp only [generateMonthlyInsights, hlt, if_false, if_pos hc, monthlyChangeInsightSpec]
  simp

theorem pc_2025_example :
    changeOf [{ period := "2025-01", count := 100 }, { period := "2025-02", count := 145 }] = 45
  ∧ latestPrevPercentChange
      [{ period := "2025-01", count := 100 }, { period := "2025-02", count := 145 }] = 45 := by
  constructor
  · simp [changeOf, previousOf, latestOf, defaultPoint, List.dropLast, List.getLastD]
  · norm_num [latestPrevPercentChange, changeOf, previousOf, latestOf, defaultPoint,
      List.dropLast, List.getLastD]

theorem pc_weekly_example :
    changeOf [{ period := "Week 1", count := 10 }, { period := "Week 2", count := 25 }] = 15
  ∧ latestPrevPercentChange
      [{ period := "Week 1", count := 10 }, { period := "Week 2", count := 25 }] = 150 := by
  constructor
  · simp [changeOf, previousOf, latestOf, defaultPoint, List.dropLast, List.getLastD]
  · norm_num [latestPrevPercentChange, changeOf, previousOf, latestOf, defaultPoint,
      List.dropLast, List.getLastD]

/-- C3 counterexample: the monthly entry point is not thresholded at
20%/50%: at a latest-vs-previous magnitude of 45 (which is below the
claimed 50% cut-off for 'critical') the monthly generator already reports
a critical-severity increase insight, because its actual thresholds are
15%/40%. -/
theorem C3_monthly_threshold_counterexample :
    latestPrevPercentChange
        [{ period := "2025-01", count := 100 }, { period := "2025-02", count := 145 }] = 45
  ∧ (45 : ℚ) < 50
  ∧ (generateMonthlyInsights
        [{ period := "2025-01", count := 100 }, { period := "2025-02", count := 145 }]).head?
      = some { severity := .critical, title := "🚨 Major Monthly Increase", icon := .alert } := by
  refine ⟨pc_2025_example.2, by norm_num, ?_⟩
  rw [monthly_head_eq _ (by simp) (by rw [pc_2025_example.1]; norm_num)]
  rw [pc_2025_example.1, pc_2025_example.2]
  simp only [monthlyChangeInsightSpec]
  norm_num
  rfl

/-- C3 (amended): the weekly entry point thresholds the latest-vs-previous
percent change at 20%/50% magnitude and the monthly entry point at
15%/40%, with the sign of the change selecting the increase/decrease
framing; whenever the latest-vs-previous change is nonzero the change
insight is the first insight returned.  For weekly counts [10, 25] the
generator reports the increase insight with percent change 150 and
severity critical. -/
theorem C3_insight_change_thresholds (trend : List TrendData)
    (h2 : 2 ≤ trend.length) (hc : changeOf trend ≠ 0) :
    (generateWeeklyInsights trend).head? =
      some (weeklyChangeInsightSpec (changeOf trend) |latestPrevPercentChange trend|)
  ∧ (generateMonthlyInsights trend).head? =
      some (monthlyChangeInsightSpec (changeOf trend) |latestPrevPercentChange trend|)
  ∧ latestPrevPercentChange
      [{ period := "Week 1", count := 10 }, { period := "Week 2", count := 25 }] = 150
  ∧ (generateWeeklyInsights
        [{ period := "Week 1", count := 10 }, { period := "Week 2", count := 25 }]).head?
      = some { severity := .critical, title := "🚨 Significant Spike Detected", icon := .alert } := by
  refine ⟨weekly_head_eq trend h2 hc, monthly_head_eq trend h2 hc, pc_weekly_example.2, ?_⟩
  rw [weekly_head_eq _ (by simp) (by rw [pc_weekly_example.1]; norm_num)]
  rw [pc_weekly_example.1, pc_weekly_example.2]
  simp only [weeklyChangeInsightSpec]
  norm_num
  rfl

theorem deltasOf_length (data : List TrendData) :
    (deltasOf data).length = data.length - 1 := by
  simp [deltasOf]

theorem natAbs_map_sum_cast (l : List Int) :
    (((l.map Int.natAbs).sum : Nat) : ℚ) = (l.map (fun c : Int => |(c : ℚ)|)).sum := by
  induction l with
  | nil => simp
  | cons a t ih =>
    simp only [List.map_cons, List.sum_cons, Nat.cast_add, ih, Int.cast_natAbs, Int.cast_abs]

theorem momentum_chain (r e : ℚ) (hr : 0 ≤ r) (he : 0 ≤ e) :
    (((if e * (13 / 10) < r then Momentum.accelerating
      else if r < e * (7 / 10) then Momentum.decelerating else Momentum.steady) =
        Momentum.accelerating) ↔ e + (3 / 10) * e < r)
  ∧ (((if e * (13 / 10) < r then Momentum.accelerating
      else if r < e * (7 / 10) then Momentum.decelerating else Momentum.steady) =
        Momentum.decelerating) ↔ r < e - (3 / 10) * e) := by
  by_cases h1 : e * (13 / 10) < r
  · rw [if_pos h1]
    constructor
    · constructor
      · intro _; linarith
      · intro _; rfl
    · constructor
      · intro h; exact Momentum.noConfusion h
      · intro h; exfalso; linarith
  · by_cases h2 : r < e * (7 / 10)
    · rw [if_neg h1, if_pos h2]
      constructor
      · constructor
        · intro h; exact Momentum.noConfusion h
        · intro h; exfalso; linarith
      · constructor
        · intro _; linarith
        · intro _; rfl
    · rw [if_neg h1, if_neg h2]
      constructor
      · constructor
        · intro h; exact Momentum.noConfusion h
        · intro h; exfalso; linarith
      · constructor
        · intro h; exact Momentum.noConfusion h
        · intro h; exfalso; linarith

/-- C7: momentum is classified only when at least 3 deltas exist (otherwise
it is steady), by comparing the mean absolute value of the last 3 deltas
against the mean absolute value of all earlier deltas (defaulting to the
recent mean when there are none): accelerating exactly when the recent
mean exceeds the earlier mean by more than 30%, decelerating exactly when
it falls below it by more than 30%. -/
theorem C7_momentum_characterization (data : List TrendData) :
    ((deltasOf data).length < 3 → (analyzeTrendPattern data).momentum = .steady)
  ∧ (3 ≤ (deltasOf data).length →
      (((analyzeTrendPattern data).momentum = .accelerating ↔
        earlierAbsMeanSpec (deltasOf data) + (3 / 10) * earlierAbsMeanSpec (deltasOf data) <
          recentAbsMeanSpec (deltasOf data))
    ∧ ((analyzeTrendPattern data).momentum = .decelerating ↔
        recentAbsMeanSpec (deltasOf data) <
          earlierAbsMeanSpec (deltasOf data) - (3 / 10) * earlierAbsMeanSpec (deltasOf data)))) := by
  have hdl := deltasOf_length data
  constructor
  · intro hlt
    by_cases h2 : data.length < 2
    · simp [analyzeTrendPattern, h2]
    · simp only [analyzeTrendPattern, if_neg h2]
      rw [if_neg (by omega : ¬ 3 ≤ (deltasOf data).length)]
  · intro h3
    have h2 : ¬ data.length < 2 := by omega
    have hlen3 : (((deltasOf data).drop ((deltasOf data).length - 3)).map Int.natAbs).length = 3 := by
      rw [List.length_map, List.length_drop]; omega
    have req : recentAbsMeanSpec (deltasOf data) =
        (((((deltasOf data).drop ((deltasOf data).length - 3)).map Int.natAbs).sum : Nat) : ℚ) /
          (((((deltasOf data).drop ((deltasOf data).length - 3)).map Int.natAbs).length : Nat) : ℚ) := by
      rw [recentAbsMeanSpec, natAbs_map_sum_cast, hlen3]
      norm_num
    have hr : (0 : ℚ) ≤
        (((((deltasOf data).drop ((deltasOf data).length - 3)).map Int.natAbs).sum : Nat) : ℚ) /
          (((((deltasOf data).drop ((deltasOf data).length - 3)).map Int.natAbs).length : Nat) : ℚ) := by
      positivity
    have eeq : earlierAbsMeanSpec (deltasOf data) =
        (if 0 < (((deltasOf data).take ((deltasOf data).length - 3)).map Int.natAbs).length then
          (((((deltasOf data).take ((deltasOf data).length - 3)).map Int.natAbs).sum : Nat) : ℚ) /
            (((((deltasOf data).take ((deltasOf data).length - 3)).map Int.natAbs).length : Nat) : ℚ)
        else
          (((((deltasOf data).drop ((deltasOf data).length - 3)).map Int.natAbs).sum : Nat) : ℚ) /
            (((((deltasOf data).drop ((deltasOf data).length - 3)).map Int.natAbs).length : Nat) : ℚ)) := by
      have hlt : (((deltasOf data).take ((deltasOf data).length - 3)).map Int.natAbs).length
          = (deltasOf data).length - 3 := by
        rw [List.length_map, List.length_take]; omega
      by_cases hc : (deltasOf data).length ≤ 3
      · have h0 : ¬ 0 < (((deltasOf data).take ((deltasOf data).length - 3)).map Int.natAbs).length := by
          omega
        rw [earlierAbsMeanSpec, if_pos hc, if_neg h0, req]
      · have h0 : 0 < (((deltasOf data).take ((deltasOf data).length - 3)).map Int.natAbs).length := by
          omega
        rw [earlierAbsMeanSpec, if_neg hc, if_pos h0, natAbs_map_sum_cast, hlt]
    have he : (0 : ℚ) ≤
        (if 0 < (((deltasOf data).take ((deltasOf data).length - 3)).map Int.natAbs).length then
          (((((deltasOf data).take ((deltasOf data).length - 3)).map Int.natAbs).sum : Nat) : ℚ) /
            (((((deltasOf data).take ((deltasOf data).length - 3)).map Int.natAbs).length : Nat) : ℚ)
        else
          (((((deltasOf data).drop ((deltasOf data).length - 3)).map Int.natAbs).sum : Nat) : ℚ) /
            (((((deltasOf data).drop ((deltasOf data).length - 3)).map Int.natAbs).length : Nat) : ℚ)) := by
      split
      · positivity
      · exact hr
    constructor
    · rw [req, eeq]
      simp only [analyzeTrendPattern, if_neg h2]
      rw [if_pos h3]
      exact (momentum_chain _ _ hr he).1
    · rw [req, eeq]
      simp only [analyzeTrendPattern, if_neg h2]
      rw [if_pos h3]
      exact (momentum_chain _ _ hr he).2

/-- C7 witness: the characterization applied to two concrete series: a
2-point series (1 delta, momentum steady) and a 5-point doubling series
(deltas [1, 2, 4, 8], recent mean 14/3 exceeding earlier mean 1 by more
than 30%, momentum accelerating). -/
theorem C7_momentum_witness :
    (analyzeTrendPattern [{ period := "a", count := 1 }, { period := "b", count := 2 }]).momentum
      = .steady
  ∧ (analyzeTrendPattern
      [{ period := "a", count := 1 }, { period := "b", count := 2 }, { period := "c", count := 4 },
       { period := "d", count := 8 }, { period := "e", count := 16 }]).momentum
      = .accelerating := by
  constructor
  · exact (C7_momentum_characterization _).1 (by simp [deltasOf])
  · refine (((C7_momentum_characterization _).2 (by simp [deltasOf])).1).mpr ?_
    norm_num [deltasOf, recentAbsMeanSpec, earlierAbsMeanSpec]

/-! ### Claim C2: breakdown percentages -/

theorem orderedInsert_perm (le : α → α → Bool) (a : α) (l : List α) :
    (orderedInsert le a l).Perm (a :: l) := by
  induction l with
  | nil => simp [orderedInsert]
  | cons b t ih =>
    rw [orderedInsert]
    split
    · exact List.Perm.refl _
    · exact ((ih.cons b).trans (List.Perm.swap a b t))

theorem stableSort_perm (le : α → α → Bool) (l : List α) :
    (stableSort le l).Perm l := by
  induction l with
  | nil => exact List.Perm.refl _
  | cons a t ih =>
    rw [stableSort]
    exact (orderedInsert_perm le a (stableSort le t)).trans (ih.cons a)

theorem bumpCount_snd_sum (k : String) (l : List (String × Nat)) :
    ((bumpCount k l).map Prod.snd).sum = (l.map Prod.snd).sum + 1 := by
  induction l with
  | nil => simp [bumpCount]
  | cons kv t ih =>
    obtain ⟨k', n⟩ := kv
    rw [bumpCount]
    split
    · simp
      omega
    · simp [ih]
      omega

theorem countByKey_snd_sum (key : TicketData → String) (data : List TicketData) :
    ((countByKey key data).map Prod.snd).sum = data.length := by
  suffices h : ∀ acc : List (String × Nat),
      (((data.foldl (fun acc t => bumpCount (key t) acc) acc).map Prod.snd).sum)
        = (acc.map Prod.snd).sum + data.length by
    simpa [countByKey] using h []
  induction data with
  | nil => intro acc; simp
  | cons t rest ih =>
    intro acc
    rw [List.foldl_cons, ih, bumpCount_snd_sum, List.length_cons]
    omega

theorem sum_div_mul_const (l : List (String × Nat)) (T : ℚ) :
    (l.map (fun kv => ((kv.2 : ℚ) / T) * 100)).sum
      = ((((l.map Prod.snd).sum : Nat) : ℚ) / T) * 100 := by
  induction l with
  | nil => simp
  | cons kv t ih =>
    simp only [List.map_cons, List.sum_cons, ih, Nat.cast_add]
    rw [add_div, add_mul]

theorem breakdownEntries_pctSum (key : TicketData → String) (data : List TicketData)
    (h : data ≠ []) : pctSum (breakdownEntries key data) = 100 := by
  have hT : 0 < data.length := List.length_pos.mpr h
  have hT0 : ((data.length : Nat) : ℚ) ≠ 0 := by
    exact_mod_cast Nat.pos_iff_ne_zero.mp hT
  rw [pctSum, breakdownEntries]
  rw [List.map_map]
  have : ((fun e : CategoryBreakdown => e.percentage) ∘ fun kv : String × Nat =>
      ({ category := kv.1, count := kv.2,
         percentage := if 0 < data.length then ((kv.2 : ℚ) / (data.length : ℚ)) * 100 else 0 } :
        CategoryBreakdown))
      = fun kv : String × Nat => ((kv.2 : ℚ) / (data.length : ℚ)) * 100 := by
    funext kv
    simp [hT]
  rw [this, sum_div_mul_const, countByKey_snd_sum]
  field_simp

theorem breakdownEntries_pctExact (key : TicketData → String) (data : List TicketData) :
    pctExact data.length (breakdownEntries key data) := by
  intro e he
  obtain ⟨kv, hkv, rfl⟩ := List.mem_map.mp he
  by_cases hT : 0 < data.length
  · simp [hT]
  · exfalso
    have : data = [] := by
      cases data with
      | nil => rfl
      | cons a t => exact absurd (by simp) hT
    subst this
    simp [countByKey] at hkv

theorem breakdownEntries_pct_nonneg (key : TicketData → String) (data : List TicketData) :
    ∀ e ∈ breakdownEntries key data, 0 ≤ e.percentage := by
  intro e he
  obtain ⟨kv, hkv, rfl⟩ := List.mem_map.mp he
  simp only
  split
  · positivity
  · exact le_refl 0

theorem take_pctSum_le (l : List CategoryBreakdown) (N : Nat)
    (h : ∀ e ∈ l, 0 ≤ e.percentage) : pctSum (l.take N) ≤ pctSum l := by
  conv_rhs => rw [pctSum, ← List.take_append_drop N l]
  rw [List.map_append, List.sum_append]
  have h0 : 0 ≤ ((l.drop N).map (·.percentage)).sum := by
    apply List.sum_nonneg
    intro x hx
    obtain ⟨e, he, rfl⟩ := List.mem_map.mp hx
    exact h e (List.mem_of_mem_drop he)
  calc pctSum (l.take N) ≤ pctSum (l.take N) + ((l.drop N).map (·.percentage)).sum := by
        linarith
    _ = ((l.take N).map (·.percentage)).sum + ((l.drop N).map (·.percentage)).sum := rfl

theorem sorted_breakdown_props (key : TicketData → String) (le : CategoryBreakdown → CategoryBreakdown → Bool)
    (data : List TicketData) (h : data ≠ []) :
    pctExact data.length (stableSort le (breakdownEntries key data))
  ∧ pctSum (stableSort le (breakdownEntries key data)) = 100 := by
  have hperm := stableSort_perm le (breakdownEntries key data)
  constructor
  · intro e he
    exact breakdownEntries_pctExact key data e (hperm.mem_iff.mp he)
  · rw [pctSum, (hperm.map (·.percentage)).sum_eq]
    exact breakdownEntries_pctSum key data h

theorem trunc_breakdown_props (key : TicketData → String)
    (le : CategoryBreakdown → CategoryBreakdown → Bool) (N : Nat)
    (data : List TicketData) (h : data ≠ []) :
    pctExact data.length ((stableSort le (breakdownEntries key data)).take N)
  ∧ pctSum ((stableSort le (breakdownEntries key data)).take N) ≤ 100 := by
  have hperm := stableSort_perm le (breakdownEntries key data)
  constructor
  · intro e he
    exact (sorted_breakdown_props key le data h).1 e (List.take_subset N _ he)
  · calc pctSum ((stableSort le (breakdownEntries key data)).take N)
        ≤ pctSum (stableSort le (breakdownEntries key data)) := by
          apply take_pctSum_le
          intro e he
          exact breakdownEntries_pct_nonneg key data e (hperm.mem_iff.mp he)
    _ = 100 := (sorted_breakdown_props key le data h).2

/-- C2 (amended): for every non-empty ticket batch, every entry of every
breakdown carries `percentage = count / total * 100`; the percentages of
the four untruncated dimensions (category, priority, status, cluster) sum
to exactly 100, while the four truncated dimensions (affiliate, record
type, support group, initiator) sum to at most 100, with equality only
when no entries are cut off by the top-N truncation. -/
theorem C2_breakdown_percentages (data : List TicketData) (h : data ≠ []) :
    (pctExact data.length (calculateCategoryBreakdown data)
      ∧ pctSum (calculateCategoryBreakdown data) = 100)
  ∧ (pctExact data.length (calculatePriorityBreakdown data)
      ∧ pctSum (calculatePriorityBreakdown data) = 100)
  ∧ (pctExact data.length (calculateStatusBreakdown data)
      ∧ pctSum (calculateStatusBreakdown data) = 100)
  ∧ (pctExact data.length (calculateClusterBreakdown data)
      ∧ pctSum (calculateClusterBreakdown data) = 100)
  ∧ (pctExact data.length (calculateAffiliateBreakdown data)
      ∧ pctSum (calculateAffiliateBreakdown data) ≤ 100)
  ∧ (pctExact data.length (calculateRecordTypeBreakdown data)
      ∧ pctSum (calculateRecordTypeBreakdown data) ≤ 100)
  ∧ (pctExact data.length (calculateSupportGroupBreakdown data)
      ∧ pctSum (calculateSupportGroupBreakdown data) ≤ 100)
  ∧ (pctExact data.length (calculateInitiatorBreakdown data)
      ∧ pctSum (calculateInitiatorBreakdown data) ≤ 100) := by
  refine ⟨?_, ?_, ?_, ?_, ?_, ?_, ?_, ?_⟩
  · simp only [calculateCategoryBreakdown]
    exact sorted_breakdown_props _ _ data h
  · simp only [calculatePriorityBreakdown]
    exact sorted_breakdown_props _ _ data h
  · simp only [calculateStatusBreakdown]
    exact sorted_breakdown_props _ _ data h
  · simp only [calculateClusterBreakdown]
    exact sorted_breakdown_props _ _ data h
  · simp only [calculateAffiliateBreakdown]
    exact trunc_breakdown_props _ _ 15 data h
  · simp only [calculateRecordTypeBreakdown]
    exact trunc_breakdown_props _ _ 10 data h
  · simp only [calculateSupportGroupBreakdown]
    exact trunc_breakdown_props _ _ 10 data h
  · simp only [calculateInitiatorBreakdown]
    exact trunc_breakdown_props _ _ 10 data h

/-- C2 counterexample: for a truncated dimension the returned percentages
do NOT sum to 100: with 11 distinct record types (each 1 of 11 tickets)
the record-type breakdown returns only the top 10 entries, whose
percentages sum to 1000/11 ≈ 90.9, not 100. -/
theorem C2_truncation_counterexample :
    elevenRecordTypes ≠ []
  ∧ pctSum (calculateRecordTypeBreakdown elevenRecordTypes) = 1000 / 11
  ∧ pctSum (calculateRecordTypeBreakdown elevenRecordTypes) ≠ 100 := by
  have h1 : countByKey (fun t => jsOr t.service_record_type "Unknown") elevenRecordTypes
      = [("RT01", 1), ("RT02", 1), ("RT03", 1), ("RT04", 1), ("RT05", 1), ("RT06", 1),
         ("RT07", 1), ("RT08", 1), ("RT09", 1), ("RT10", 1), ("RT11", 1)] := by decide
  have hlen : elevenRecordTypes.length = 11 := by decide
  have hpct : ∀ e ∈ breakdownEntries (fun t => jsOr t.service_record_type "Unknown")
      elevenRecordTypes, e.percentage = 100 / 11 := by
    intro e he
    obtain ⟨kv, hkv, rfl⟩ := List.mem_map.mp he
    rw [h1] at hkv
    have h2 : kv.2 = 1 := by
      have hall : ∀ kv' ∈ [(("RT01" : String), (1 : Nat)), ("RT02", 1), ("RT03", 1),
          ("RT04", 1), ("RT05", 1), ("RT06", 1), ("RT07", 1), ("RT08", 1), ("RT09", 1),
          ("RT10", 1), ("RT11", 1)], kv'.2 = 1 := by decide
      exact hall kv hkv
    simp only [h2, hlen]
    norm_num
  have hperm := stableSort_perm descByCount
    (breakdownEntries (fun t => jsOr t.service_record_type "Unknown") elevenRecordTypes)
  have hsortpct : ∀ e ∈ stableSort descByCount
      (breakdownEntries (fun t => jsOr t.service_record_type "Unknown") elevenRecordTypes),
      e.percentage = 100 / 11 := by
    intro e he
    exact hpct e (hperm.mem_iff.mp he)
  have hslen : (stableSort descByCount
      (breakdownEntries (fun t => jsOr t.service_record_type "Unknown") elevenRecordTypes)).length
      = 11 := by
    rw [hperm.length_eq, breakdownEntries, List.length_map, h1]
    rfl
  have hsum : pctSum (calculateRecordTypeBreakdown elevenRecordTypes) = 1000 / 11 := by
    rw [calculateRecordTypeBreakdown, pctSum]
    have hrep : ((stableSort descByCount
        (breakdownEntries (fun t => jsOr t.service_record_type "Unknown")
          elevenRecordTypes)).take 10).map (·.percentage)
        = List.replicate 10 ((100 : ℚ) / 11) := by
      rw [List.eq_replicate_iff]
      constructor
      · rw [List.length_map, List.length_take, hslen]
        rfl
      · intro b hb
        obtain ⟨e, he, rfl⟩ := List.mem_map.mp hb
        exact hsortpct e (List.take_subset 10 _ he)
    rw [hrep, List.sum_replicate, nsmul_eq_mul]
    norm_num
  refine ⟨by simp [elevenRecordTypes], hsum, ?_⟩
  rw [hsum]
  norm_num

/-- C2 witness: the breakdown-percentage theorem applied to a concrete
one-ticket batch. -/
theorem C2_breakdown_percentages_witness :
    pctSum (calculateCategoryBreakdown [{ third_lvl_category := some "X" }]) = 100 :=
  ((C2_breakdown_percentages [{ third_lvl_category := some "X" }] (by simp)).1).2

/-! ### Claims C4 and C6: week assignment -/

theorem weekLabel_not_blank (w : Int) : isBlankStr ("Week " ++ toString w) = false := by
  obtain ⟨r, hr⟩ : ∃ r, ("Week " ++ toString w).data = 'W' :: r := ⟨_, rfl⟩
  have htrim : trimChars (("Week " ++ toString w).data) ≠ [] := by
    rw [hr, trimChars, List.dropWhile_cons_of_neg (by decide)]
    rw [dropTrailingWS, Ne, List.reverse_eq_nil_iff, List.dropWhile_eq_nil_iff]
    intro hall
    have hW := hall 'W' (by simp)
    simp [isWS] at hW
  simp only [isBlankStr, jsTrim]
  rw [beq_eq_false_iff_ne]
  intro hEq
  apply htrim
  simpa using congrArg String.data hEq

theorem assignWeek_request_time (m : Int) (t : TicketData) :
    (assignWeek m t).request_time = t.request_time := by
  rw [assignWeek]
  split
  · rfl
  · split
    · rfl
    · rfl

theorem assignWeek_nonblank (m : Int) (t : TicketData) (h : blankWeekLabel t = false) :
    assignWeek m t = t := by
  rw [assignWeek, if_pos h]

theorem assignWeek_some (m : Int) (t : TicketData) (r : Int)
    (hb : blankWeekLabel t = true) (hr : t.request_time = some r) :
    assignWeek m t =
      { t with week_number := some (((r - m).fdiv 86400000).fdiv 7 + 1),
               week_label := some ("Week " ++ toString (((r - m).fdiv 86400000).fdiv 7 + 1)) } := by
  rw [assignWeek, if_neg (by simp [hb]), hr]

theorem assignWeek_idem (m : Int) (t : TicketData) :
    assignWeek m (assignWeek m t) = assignWeek m t := by
  cases hb : blankWeekLabel t with
  | false => rw [assignWeek_nonblank m t hb, assignWeek_nonblank m t hb]
  | true =>
    cases hr : t.request_time with
    | none =>
      have ht : assignWeek m t = t := by
        rw [assignWeek, if_neg (by simp [hb]), hr]
      rw [ht]
      exact ht
    | some r =>
      rw [assignWeek_some m t r hb hr]
      apply assignWeek_nonblank
      simp [blankWeekLabel, weekLabel_not_blank]

theorem filterMap_request_time_map (m : Int) (ts : List TicketData) :
    (ts.map (assignWeek m)).filterMap (fun t => t.request_time)
      = ts.filterMap (fun t => t.request_time) := by
  rw [List.filterMap_map]
  congr 1
  funext t
  simp [Function.comp, assignWeek_request_time]

theorem calcWeek_branches (tz : Int) (ts : List TicketData) :
    calculateWeekNumbers tz ts = ts
  ∨ ∃ d ds, ts.filterMap (fun t => t.request_time) = d :: ds
      ∧ calculateWeekNumbers tz ts
          = ts.map (assignWeek (floorToLocalDay tz (ds.foldl min d))) := by
  by_cases h0 : ts = []
  · left; rw [calculateWeekNumbers, if_pos h0]
  · by_cases h1 : ts.filter (fun t => blankWeekLabel t) = []
    · left; simp [calculateWeekNumbers, h0, h1]
    · rcases hd : ts.filterMap (fun t => t.request_time) with _ | ⟨d, ds⟩
      · left; simp [calculateWeekNumbers, h0, h1, hd]
      · right; exact ⟨d, ds, hd, by simp [calculateWeekNumbers, h0, h1, hd]⟩

theorem calcWeek_map_form (tz : Int) (ts : List TicketData)
    (hne : ∃ t ∈ ts, blankWeekLabel t = true)
    (hdate : ∃ t ∈ ts, t.request_time ≠ none) :
    ∃ d ds, ts.filterMap (fun t => t.request_time) = d :: ds
      ∧ calculateWeekNumbers tz ts
          = ts.map (assignWeek (floorToLocalDay tz (ds.foldl min d))) := by
  obtain ⟨t0, ht0m, ht0b⟩ := hne
  obtain ⟨t1, ht1m, ht1r⟩ := hdate
  have h0 : ts ≠ [] := List.ne_nil_of_mem ht0m
  have h1 : ts.filter (fun t => blankWeekLabel t) ≠ [] := by
    apply List.ne_nil_of_mem (a := t0)
    rw [List.mem_filter]
    exact ⟨ht0m, ht0b⟩
  have h2 : ts.filterMap (fun t => t.request_time) ≠ [] := by
    obtain ⟨r, hr⟩ := Option.ne_none_iff_exists'.mp ht1r
    apply List.ne_nil_of_mem (a := r)
    exact List.mem_filterMap.mpr ⟨t1, ht1m, hr⟩
  rcases hd : ts.filterMap (fun t => t.request_time) with _ | ⟨d, ds⟩
  · exact absurd hd h2
  · exact ⟨d, ds, hd, by simp [calculateWeekNumbers, h0, h1, hd]⟩

theorem fdiv_mono (a b c : Int) (hc : 0 < c) (h : a ≤ b) : a.fdiv c ≤ b.fdiv c := by
  rw [Int.fdiv_eq_ediv _ (le_of_lt hc), Int.fdiv_eq_ediv _ (le_of_lt hc)]
  exact Int.ediv_le_ediv hc h

/-- C4 counterexample: week numbers are NOT strictly increasing in
`request_time`: two records one day apart (epoch instant 0 and 86400000)
both receive week number 1, so a strictly later request time does not give
a strictly larger week number. -/
theorem C4_strictness_counterexample :
    ((calculateWeekNumbers 0
        [{ request_time := some 0 }, { request_time := some 86400000 }]).map
      (fun t => t.week_number)) = [some 1, some 1]
  ∧ (0 : Int) < 86400000 := by
  constructor
  · decide
  · decide

/-- C4 (amended): week numbers are monotone (non-strictly) in
`request_time`: among records that lacked a week label and carry a request
time, the one with the later-or-equal request time receives a
greater-or-equal week number. -/
theorem C4_week_number_monotone (tz : Int) (ts : List TicketData) (i j : Nat)
    (hi : i < ts.length) (hj : j < ts.length)
    (hbi : blankWeekLabel ts[i] = true) (hbj : blankWeekLabel ts[j] = true)
    (ra rb : Int) (hra : ts[i].request_time = some ra) (hrb : ts[j].request_time = some rb)
    (hle : ra ≤ rb) :
    ∃ wa wb : Int,
      ((calculateWeekNumbers tz ts)[i]?.bind (fun t => t.week_number)) = some wa
    ∧ ((calculateWeekNumbers tz ts)[j]?.bind (fun t => t.week_number)) = some wb
    ∧ wa ≤ wb := by
  obtain ⟨d, ds, hd, h⟩ := calcWeek_map_form tz ts
    ⟨ts[i], List.getElem_mem hi, hbi⟩
    ⟨ts[i], List.getElem_mem hi, by rw [hra]; simp⟩
  refine ⟨((ra - floorToLocalDay tz (ds.foldl min d)).fdiv 86400000).fdiv 7 + 1,
    ((rb - floorToLocalDay tz (ds.foldl min d)).fdiv 86400000).fdiv 7 + 1, ?_, ?_, ?_⟩
  · rw [h, List.getElem?_map, List.getElem?_eq_getElem hi]
    simp only [Option.map_some', Option.some_bind]
    rw [assignWeek_some _ _ ra hbi hra]
  · rw [h, List.getElem?_map, List.getElem?_eq_getElem hj]
    simp only [Option.map_some', Option.some_bind]
    rw [assignWeek_some _ _ rb hbj hrb]
  · have h1 : ra - floorToLocalDay tz (ds.foldl min d)
        ≤ rb - floorToLocalDay tz (ds.foldl min d) := by omega
    have h2 := fdiv_mono _ _ 86400000 (by decide) h1
    have h3 := fdiv_mono _ _ 7 (by decide) h2
    omega

/-- C4 witness: the monotonicity theorem applied to a concrete two-record
batch 8 days apart (week numbers 1 and 2). -/
theorem C4_week_number_monotone_witness :
    ∃ wa wb : Int,
      ((calculateWeekNumbers 0
          [{ request_time := some 0 }, { request_time := some 691200000 }])[0]?.bind
        (fun t => t.week_number)) = some wa
    ∧ ((calculateWeekNumbers 0
          [{ request_time := some 0 }, { request_time := some 691200000 }])[1]?.bind
        (fun t => t.week_number)) = some wb
    ∧ wa ≤ wb :=
  C4_week_number_monotone 0
    [{ request_time := some 0 }, { request_time := some 691200000 }] 0 1
    (by decide) (by decide) (by decide) (by decide) 0 691200000
    (by decide) (by decide) (by decide)

/-- C6 counterexample: a record whose `week_label` is the non-empty
whitespace string " " is NOT left untouched: the assigner treats a
whitespace-only label as missing (`week_label.trim() === ''`) and
overwrites it with "Week 1". -/
theorem C6_whitespace_label_counterexample :
    (" " : String) ≠ ""
  ∧ ((calculateWeekNumbers 0 [{ week_label := some " ", request_time := some 0 }]).map
      (fun t => t.week_label)) = [some "Week 1"] := by
  constructor
  · decide
  · decide

/-- C6 (amended): week assignment is idempotent (a second application to
its own output is the identity), and any record whose existing
`week_label` is non-blank (non-empty after trimming whitespace) is left
untouched. -/
theorem C6_week_assignment_idempotent (tz : Int) (ts : List TicketData) :
    calculateWeekNumbers tz (calculateWeekNumbers tz ts) = calculateWeekNumbers tz ts
  ∧ ∀ i (hi : i < ts.length), blankWeekLabel ts[i] = false →
      (calculateWeekNumbers tz ts)[i]? = some ts[i] := by
  constructor
  · rcases calcWeek_branches tz ts with h | ⟨d, ds, hd, h⟩
    · rw [h]
      exact h
    · rw [h]
      rcases calcWeek_branches tz
          (ts.map (assignWeek (floorToLocalDay tz (ds.foldl min d)))) with h2 | ⟨d', ds', hd2, h2⟩
      · exact h2
      · have hsame : d' :: ds' = d :: ds := by
          rw [← hd2, filterMap_request_time_map, hd]
        obtain ⟨hd', hds'⟩ : d' = d ∧ ds' = ds := by simpa using hsame
        subst hd'
        subst hds'
        rw [h2, List.map_map]
        apply List.map_congr_left
        intro t _
        exact assignWeek_idem _ t
  · intro i hi hni
    rcases calcWeek_branches tz ts with h | ⟨d, ds, hd, h⟩
    · rw [h, List.getElem?_eq_getElem hi]
    · rw [h, List.getElem?_map, List.getElem?_eq_getElem hi]
      simp [assignWeek_nonblank _ _ hni]

/-- C6 witness: the untouched-record part applied to a concrete record
with a non-blank caller-supplied label. -/
theorem C6_week_assignment_idempotent_witness :
    (calculateWeekNumbers 0
        [{ week_label := some "W1", request_time := some 0 }])[0]?
      = some { week_label := some "W1", request_time := some 0 } :=
  (C6_week_assignment_idempotent 0
      [{ week_label := some "W1", request_time := some 0 }]).2 0 (by decide) (by decide)

/-! ### Claims C5 and C8: date parsing -/

/-- C5 counterexample: the four formats do NOT agree in a non-UTC host
timezone.  At offset +1h (3600000 ms east of UTC) the ISO form
`2025-01-15` is parsed as UTC midnight while the day-first form
`15/01/2025` is constructed in local time, one hour earlier as an
instant — the returned ISO strings (hence instants) differ although both
inputs name the same calendar day and specify no time of day. -/
theorem C5_timezone_counterexample :
    parseDate 3600000 "2025-01-15" = some 1736899200000
  ∧ parseDate 3600000 "15/01/2025" = some 1736895600000
  ∧ parseDate 3600000 "2025-01-15" ≠ parseDate 3600000 "15/01/2025" := by
  refine ⟨by decide, by decide, by decide⟩

/-- C5 (amended): in a UTC host timezone (offset 0) the four date strings
"15/01/2025", "2025-01-15", "15 Jan 2025" and "Jan 15, 2025" all parse to
the same instant 2025-01-15T00:00:00.000Z; in a non-UTC host the ISO form
(parsed as UTC) deviates from the other three (parsed in local time). -/
theorem C5_same_day_formats_utc :
    parseDate 0 "15/01/2025" = some 1736899200000
  ∧ parseDate 0 "2025-01-15" = some 1736899200000
  ∧ parseDate 0 "15 Jan 2025" = some 1736899200000
  ∧ parseDate 0 "Jan 15, 2025" = some 1736899200000 := by
  refine ⟨by decide, by decide, by decide, by decide⟩

/-- C8: `parseDate` tries its strategies in order — generic engine parse,
`DD/MM/YYYY` (with its internal day>12 `MM/DD/YYYY` fallback),
`YYYY-MM-DD`, the named-month formats, and last spreadsheet serial
numbers; when all earlier strategies fail, the result is a serial date
(days since 1899-12-30) exactly when the `parseFloat` value lies strictly
between 0 and 100000. -/
theorem C8_parseDate_strategy_order (tz : Int) (s : String) :
    (isBlankStr s = true → parseDate tz s = none)
  ∧ (isBlankStr s = false → ∀ t, jsGenericParse tz (jsTrim s) = some t →
      parseDate tz s = some t)
  ∧ (isBlankStr s = false → jsGenericParse tz (jsTrim s) = none →
      ∀ t, ddmmStrategy tz (jsTrim s) = some t → parseDate tz s = some t)
  ∧ (isBlankStr s = false → jsGenericParse tz (jsTrim s) = none →
      ddmmStrategy tz (jsTrim s) = none →
      ∀ t, ymdStrategy tz (jsTrim s) = some t → parseDate tz s = some t)
  ∧ (isBlankStr s = false → jsGenericParse tz (jsTrim s) = none →
      ddmmStrategy tz (jsTrim s) = none → ymdStrategy tz (jsTrim s) = none →
      ∀ t, ddMonStrategy tz (jsTrim s) = some t → parseDate tz s = some t)
  ∧ (isBlankStr s = false → jsGenericParse tz (jsTrim s) = none →
      ddmmStrategy tz (jsTrim s) = none → ymdStrategy tz (jsTrim s) = none →
      ddMonStrategy tz (jsTrim s) = none →
      ∀ t, monDdStrategy tz (jsTrim s) = some t → parseDate tz s = some t)
  ∧ (isBlankStr s = false → jsGenericParse tz (jsTrim s) = none →
      ddmmStrategy tz (jsTrim s) = none → ymdStrategy tz (jsTrim s) = none →
      ddMonStrategy tz (jsTrim s) = none → monDdStrategy tz (jsTrim s) = none →
      ∀ m, (parseDate tz s = some m ↔
        ∃ v, jsParseFloat (jsTrim s) = some v ∧ 0 < v ∧ v < 100000
          ∧ excelSerialToMs tz v = some m)) := by
  refine ⟨?_, ?_, ?_, ?_, ?_, ?_, ?_⟩
  · intro hb
    rw [parseDate, if_pos hb]
  · intro hb t hg
    rw [parseDate, if_neg (by simp [hb])]
    dsimp only
    rw [hg]
  · intro hb h1 t h2
    rw [parseDate, if_neg (by simp [hb])]
    dsimp only
    rw [h1, h2]
  · intro hb h1 h2 t h3
    rw [parseDate, if_neg (by simp [hb])]
    dsimp only
    rw [h1, h2, h3]
  · intro hb h1 h2 h3 t h4
    rw [parseDate, if_neg (by simp [hb])]
    dsimp only
    rw [h1, h2, h3, h4]
  · intro hb h1 h2 h3 h4 t h5
    rw [parseDate, if_neg (by simp [hb])]
    dsimp only
    rw [h1, h2, h3, h4, h5]
  · intro hb h1 h2 h3 h4 h5 m
    rw [parseDate, if_neg (by simp [hb])]
    dsimp only
    rw [h1, h2, h3, h4, h5, serialStrategy]
    cases hv : jsParseFloat (jsTrim s) with
    | none => simp
    | some v =>
      dsimp only
      by_cases hr : 0 < v ∧ v < 100000
      · rw [if_pos hr]
        constructor
        · intro h
          exact ⟨v, rfl, hr.1, hr.2, h⟩
        · rintro ⟨v', hv', hlo, hhi, hm⟩
          obtain rfl : v = v' := by simpa using hv'
          exact hm
      · rw [if_neg hr]
        constructor
        · intro h
          exact absurd h (by simp)
        · rintro ⟨v', hv', hlo, hhi, hm⟩
          obtain rfl : v = v' := by simpa using hv'
          exact absurd ⟨hlo, hhi⟩ hr

/-- C8 witness: the serial characterization applied to the numeric string
"45000": every earlier strategy fails, the `parseFloat` value 45000 lies
in (0, 100000), and the result is 45000 days after 1899-12-30
(2023-03-15T00:00:00Z). -/
theorem C8_parseDate_strategy_order_witness :
    parseDate 0 "45000" = some 1678838400000 := by
  apply ((C8_parseDate_strategy_order 0 "45000").2.2.2.2.2.2
    (by decide) (by decide) (by decide) (by decide) (by decide) (by decide)
    1678838400000).mpr
  refine ⟨45000, ?_, by norm_num, by norm_num, ?_⟩
  · have hp : parseFloatParts (jsTrim "45000") = some (false, 45000, 0, 0) := by decide
    rw [jsParseFloat, hp]
    norm_num
  · have he : jsNewDateLocal 0 1899 11 30 0 0 0 = some (-2209161600000) := by decide
    rw [excelSerialToMs, he]
    norm_num [ratTrunc]

/-! ### Claims C1 and C10: batch-fatal error behavior -/

theorem filter_nonfatal_ne_nil (l : List PapaError) :
    l.filter (fun e => !isFieldCountCode e) ≠ [] ↔ ∃ e ∈ l, isFieldCountCode e = false := by
  rw [Ne, List.filter_eq_nil_iff]
  push_neg
  constructor
  · rintro ⟨e, he, hp⟩
    exact ⟨e, he, by simpa using hp⟩
  · rintro ⟨e, he, hp⟩
    exact ⟨e, he, by simpa using hp⟩

theorem parseExcelData_gate_closed (tz : Int) (now : Nat) (res : PapaResult)
    (hA : ((res.errors.filter (fun e => !isFieldCountCode e)).map papaErrorMsg
      ++ (if missingTicketCol res.fields then ["Missing required column: Ticket ID"] else [])
      ++ (if missingRequestCol res.fields then ["Missing required column: Request Time"] else []))
      = []) :
    parseExcelData tz now res =
      { data := (processRows tz now res.fields (buildMappedHeaders res.fields) res.data).1,
        errors := if (processRows tz now res.fields (buildMappedHeaders res.fields) res.data).1 = []
          then ["No valid ticket data found in the input"] else [],
        warnings := ((res.errors.filter isFieldCountCode).map
            (fun e => papaErrorMsg e ++ " - Row will be skipped if invalid"))
          ++ (processRows tz now res.fields (buildMappedHeaders res.fields) res.data).2 } := by
  rw [parseExcelData]
  dsimp only
  rw [if_neg (by simp [hA])]

theorem parseExcelData_gate_open (tz : Int) (now : Nat) (res : PapaResult)
    (hA : ((res.errors.filter (fun e => !isFieldCountCode e)).map papaErrorMsg
      ++ (if missingTicketCol res.fields then ["Missing required column: Ticket ID"] else [])
      ++ (if missingRequestCol res.fields then ["Missing required column: Request Time"] else []))
      ≠ []) :
    parseExcelData tz now res =
      { data := [],
        errors := (res.errors.filter (fun e => !isFieldCountCode e)).map papaErrorMsg
          ++ (if missingTicketCol res.fields then ["Missing required column: Ticket ID"] else [])
          ++ (if missingRequestCol res.fields then ["Missing required column: Request Time"] else []),
        warnings := (res.errors.filter isFieldCountCode).map
          (fun e => papaErrorMsg e ++ " - Row will be skipped if invalid") } := by
  rw [parseExcelData]
  dsimp only
  rw [if_pos hA]

/-- C1 counterexample: missing required columns is NOT the only batch-fatal
condition: an input whose required columns are both present but whose row
set yields zero valid records also returns a non-empty `errors` array
("No valid ticket data found in the input"). -/
theorem C1_only_condition_counterexample :
    (parseExcelData 0 0 { fields := ["Ticket ID", "Request Time"], data := [], errors := [] }).errors
      = ["No valid ticket data found in the input"]
  ∧ missingTicketCol ["Ticket ID", "Request Time"] = false
  ∧ missingRequestCol ["Ticket ID", "Request Time"] = false := by
  refine ⟨by decide, by decide, by decide⟩

/-- C1 (amended): whenever `parseExcelData` returns a non-empty `errors`
array it returns an empty `data` array (the whole batch is rejected,
never partially accepted), and the batch-fatal conditions are exactly: a
non-field-count tokenizer error, a missing Ticket ID column, a missing
Request Time column, or a row set from which no valid record could be
parsed. -/
theorem C1_batch_fatal_characterization (tz : Int) (now : Nat) (res : PapaResult) :
    ((parseExcelData tz now res).errors ≠ [] → (parseExcelData tz now res).data = [])
  ∧ ((parseExcelData tz now res).errors ≠ [] ↔
      (∃ e ∈ res.errors, isFieldCountCode e = false)
      ∨ missingTicketCol res.fields = true
      ∨ missingRequestCol res.fields = true
      ∨ (processRows tz now res.fields (buildMappedHeaders res.fields) res.data).1 = []) := by
  by_cases hA : ((res.errors.filter (fun e => !isFieldCountCode e)).map papaErrorMsg
      ++ (if missingTicketCol res.fields then ["Missing required column: Ticket ID"] else [])
      ++ (if missingRequestCol res.fields then ["Missing required column: Request Time"] else []))
      = []
  · obtain ⟨hmap, hiteT, hiteR⟩ :
        (res.errors.filter (fun e => !isFieldCountCode e)).map papaErrorMsg = []
      ∧ (if missingTicketCol res.fields then ["Missing required column: Ticket ID"] else []) = []
      ∧ (if missingRequestCol res.fields then ["Missing required column: Request Time"] else []) = [] := by
      rcases List.append_eq_nil.mp hA with ⟨h12, h3⟩
      rcases List.append_eq_nil.mp h12 with ⟨h1, h2⟩
      exact ⟨h1, h2, h3⟩
    have hfatal : ¬ ∃ e ∈ res.errors, isFieldCountCode e = false := by
      rw [← filter_nonfatal_ne_nil]
      simpa using List.map_eq_nil_iff.mp hmap
    have hT : missingTicketCol res.fields = false := by
      by_cases h : missingTicketCol res.fields
      · rw [if_pos h] at hiteT; cases hiteT
      · simpa using h
    have hR : missingRequestCol res.fields = false := by
      by_cases h : missingRequestCol res.fields
      · rw [if_pos h] at hiteR; cases hiteR
      · simpa using h
    rw [parseExcelData_gate_closed tz now res hA]
    constructor
    · intro he
      by_cases hrows : (processRows tz now res.fields (buildMappedHeaders res.fields) res.data).1 = []
      · exact hrows
      · rw [if_neg hrows] at he
        exact absurd rfl he
    · constructor
      · intro he
        by_cases hrows : (processRows tz now res.fields (buildMappedHeaders res.fields) res.data).1 = []
        · exact Or.inr (Or.inr (Or.inr hrows))
        · rw [if_neg hrows] at he
          exact absurd rfl he
      · rintro (h | h | h | h)
        · exact absurd h hfatal
        · rw [hT] at h; cases h
        · rw [hR] at h; cases h
        · rw [if_pos h]
          simp
  · rw [parseExcelData_gate_open tz now res hA]
    refine ⟨fun _ => rfl, ?_⟩
    constructor
    · intro _
      by_cases hf : (res.errors.filter (fun e => !isFieldCountCode e)).map papaErrorMsg = []
      · by_cases hT : missingTicketCol res.fields
        · exact Or.inr (Or.inl hT)
        · by_cases hR : missingRequestCol res.fields
          · exact Or.inr (Or.inr (Or.inl hR))
          · exfalso
            apply hA
            rw [hf, if_neg hT, if_neg hR]
            rfl
      · refine Or.inl ?_
        rw [← filter_nonfatal_ne_nil]
        intro hnil
        exact hf (by rw [hnil]; rfl)
    · intro _
      exact hA

/-- C1 witness: the whole-batch-rejection direction applied to a concrete
input with both required columns and zero rows. -/
theorem C1_batch_fatal_characterization_witness :
    (parseExcelData 0 0
      { fields := ["Ticket ID", "Request Time"], data := [], errors := [] }).data = [] :=
  (C1_batch_fatal_characterization 0 0
    { fields := ["Ticket ID", "Request Time"], data := [], errors := [] }).1 (by decide)

/-- C10: an import that yields an empty `data` array always carries at
least one error: either the gate errors (tokenizer or missing required
columns) or the final "No valid ticket data found" error, so callers can
distinguish "nothing parsed" from "empty but successful". -/
theorem C10_empty_data_has_error (tz : Int) (now : Nat) (res : PapaResult) :
    (parseExcelData tz now res).data = [] → (parseExcelData tz now res).errors ≠ [] := by
  by_cases hA : ((res.errors.filter (fun e => !isFieldCountCode e)).map papaErrorMsg
      ++ (if missingTicketCol res.fields then ["Missing required column: Ticket ID"] else [])
      ++ (if missingRequestCol res.fields then ["Missing required column: Request Time"] else []))
      = []
  · rw [parseExcelData_gate_closed tz now res hA]
    intro hdata
    rw [if_pos hdata]
    simp
  · rw [parseExcelData_gate_open tz now res hA]
    intro _
    exact hA

/-- C10 witness: the theorem applied to a concrete zero-row input. -/
theorem C10_empty_data_has_error_witness :
    (parseExcelData 0 0
      { fields := ["Ticket ID", "Request Time"], data := [], errors := [] }).errors ≠ [] :=
  C10_empty_data_has_error 0 0
    { fields := ["Ticket ID", "Request Time"], data := [], errors := [] } (by decide)

/-- C3 witness: the general thresholds theorem applied to the concrete
weekly series [10, 25]. -/
theorem C3_insight_change_thresholds_witness :
    (generateWeeklyInsights
        [{ period := "Week 1", count := 10 }, { period := "Week 2", count := 25 }]).head? =
      some (weeklyChangeInsightSpec
        (changeOf [{ period := "Week 1", count := 10 }, { period := "Week 2", count := 25 }])
        |latestPrevPercentChange
          [{ period := "Week 1", count := 10 }, { period := "Week 2", count := 25 }]|) :=
  (C3_insight_change_thresholds
      [{ period := "Week 1", count := 10 }, { period := "Week 2", count := 25 }]
      (by simp) (by rw [pc_weekly_example.1]; norm_num)).1

end Trend

